import Mathlib

/-!
Shallow embedding of the PMark3 backend core (multi-turn slot-filling and
similarity-ranking engine) and proofs about its specified behaviour.

The definitions mirror the Python source:
- `src/backend/app/models.py` (`AccumulatedClues`, `ParsedInput`, `SessionState`)
- `src/backend/app/session_manager.py` (`SessionManager`)
- `src/backend/app/logic/recommender.py` (`RecommendationEngine`)
- `src/backend/app/database.py` (`DatabaseManager` search functions)
- `src/backend/app/agents/parser.py` (`InputParser.parse_input_with_context`)

Python floats are modelled as rationals (`ℚ`), Python truthiness of an
optional string (`None` or `""` are falsy) by the `present` predicate,
Python exceptions by `Except PyError`, and wall-clock times by `Nat`
(seconds).  External collaborators (the LLM normalizer, the LLM work-detail
generator, the Excel cost-center lookup) are passed in as function
parameters, exactly where the source calls out to them.
-/

/-- Runtime errors that the modelled code paths can raise.
`nameError` models Python's `NameError`/`UnboundLocalError` (reading a local
variable that was never assigned), `attributeError` models `AttributeError`
(calling a method that does not exist on an object). -/
inductive PyError where
  | nameError : PyError
  | attributeError : PyError
deriving DecidableEq

/-- Python truthiness of an optional string: `None` and `""` are falsy,
every other string is truthy. -/
def present : Option String → Bool
  | none => false
  | some s => s ≠ ""

/-- `o if truthy else ""` — used for Python's `x.get(k) or ''`. -/
def optStr (o : Option String) : String := o.getD ""

/-- Python `a or d` for an optional/str `a` and a string default `d`. -/
def orStr (a : Option String) (d : String) : String :=
  if present a then optStr a else d

/-- `ParsedInput` from `models.py` (lines 216-244): the per-turn extraction
result.  `priority` is a plain string with default `"일반작업"`; the other
text fields are optional.  `confidence` is the scalar LLM confidence. -/
structure ParsedInput where
  scenario : String
  location : Option String := none
  equipment_type : Option String := none
  status_code : Option String := none
  priority : String := "일반작업"
  itemno : Option String := none
  confidence : ℚ := 0
  missing_items : List String := []
  needs_additional_input : Bool := false
deriving DecidableEq

/-- `AccumulatedClues` from `models.py` (lines 50-73): the per-session
accumulated slot values, each of the four scored fields paired with a
confidence.  Created empty (all `none`, confidences `0`). -/
structure AccumulatedClues where
  location : Option String := none
  equipment_type : Option String := none
  status_code : Option String := none
  priority : Option String := none
  itemno : Option String := none
  location_confidence : ℚ := 0
  equipment_type_confidence : ℚ := 0
  status_code_confidence : ℚ := 0
  priority_confidence : ℚ := 0
deriving DecidableEq

/-- The location `if` block of `AccumulatedClues.merge_with` (`models.py`
lines 102-108), acting on the working copy `m` (initially a copy of
`self`): overwrite value and confidence when the incoming location is
truthy and the stored one is absent or beaten by more than `0.1`. -/
def mergeStepLocation (m : AccumulatedClues) (p : ParsedInput) :
    AccumulatedClues :=
  if present p.location ∧
      (¬ present m.location ∨ p.confidence > m.location_confidence + 1/10) then
    { m with location := p.location, location_confidence := p.confidence }
  else m

/-- The equipment-type `if` block of `merge_with` (`models.py` lines
110-116). -/
def mergeStepEquipment (m : AccumulatedClues) (p : ParsedInput) :
    AccumulatedClues :=
  if present p.equipment_type ∧
      (¬ present m.equipment_type ∨
        p.confidence > m.equipment_type_confidence + 1/10) then
    { m with equipment_type := p.equipment_type,
             equipment_type_confidence := p.confidence }
  else m

/-- The status-code `if` block of `merge_with` (`models.py` lines
118-124). -/
def mergeStepStatus (m : AccumulatedClues) (p : ParsedInput) :
    AccumulatedClues :=
  if present p.status_code ∧
      (¬ present m.status_code ∨
        p.confidence > m.status_code_confidence + 1/10) then
    { m with status_code := p.status_code,
             status_code_confidence := p.confidence }
  else m

/-- The priority `if` block of `merge_with` (`models.py` lines 126-132):
same rule, but an incoming priority equal to the neutral default
`"일반작업"` is never accepted. -/
def mergeStepPriority (m : AccumulatedClues) (p : ParsedInput) :
    AccumulatedClues :=
  if p.priority ≠ "" ∧ p.priority ≠ "일반작업" ∧
      (¬ present m.priority ∨ p.confidence > m.priority_confidence + 1/10) then
    { m with priority := some p.priority, priority_confidence := p.confidence }
  else m

/-- The ITEMNO `if` block of `merge_with` (`models.py` lines 134-136):
unconditional overwrite when the incoming ITEMNO is truthy. -/
def mergeStepItemno (m : AccumulatedClues) (p : ParsedInput) :
    AccumulatedClues :=
  if present p.itemno then { m with itemno := p.itemno } else m

/-- `AccumulatedClues.merge_with` from `models.py` (lines 75-138).
The Python method first copies `self` into `merged` and then runs the five
`if` blocks in order, each mutating only its own field pair, so the blocks
compose; Python truthiness of the optional fields is rendered through
`present`. -/
def AccumulatedClues.merge_with (c : AccumulatedClues) (p : ParsedInput) :
    AccumulatedClues :=
  mergeStepItemno
    (mergeStepPriority (mergeStepStatus (mergeStepEquipment
      (mergeStepLocation c p) p) p) p) p

/-- `AccumulatedClues.has_sufficient_info` from `models.py` (lines 187-194):
all three required clues (location, equipment type, status code) present. -/
def AccumulatedClues.has_sufficient_info (c : AccumulatedClues) : Bool :=
  present c.location && present c.equipment_type && present c.status_code

/-- `AccumulatedClues.get_missing_fields` from `models.py` (lines 171-185). -/
def AccumulatedClues.get_missing_fields (c : AccumulatedClues) : List String :=
  (if present c.location then [] else ["location"]) ++
  (if present c.equipment_type then [] else ["equipment_type"]) ++
  (if present c.status_code then [] else ["status_code"])

/-- `SessionState` from `models.py` (lines 196-214).  Times are seconds. -/
structure SessionState where
  session_id : String
  accumulated_clues : AccumulatedClues
  session_status : String
  created_at : Nat
  last_updated : Nat
  turn_count : Nat
deriving DecidableEq

/-- `SessionManager._determine_session_status` from `session_manager.py`
(lines 153-178): `"finalizing"` when the incoming scenario is `"S2"` or the
clues carry an ITEMNO, else `"recommending"` when the three required clues
are all present, else `"collecting_info"`. -/
def determineSessionStatus (clues : AccumulatedClues) (pi : ParsedInput) :
    String :=
  if pi.scenario = "S2" ∨ present clues.itemno then "finalizing"
  else if clues.has_sufficient_info then "recommending"
  else "collecting_info"

/-- The in-memory state of a `SessionManager` (`session_manager.py` line 43):
an association list modelling the `_sessions` dict, plus a counter used to
generate fresh session ids (modelling `uuid.uuid4()`). -/
structure SessionManagerState where
  sessions : List (String × SessionState)
  nextId : Nat
deriving DecidableEq

/-- `SESSION_TIMEOUT` from `session_manager.py` line 44: 30 minutes,
in seconds. -/
def SESSION_TIMEOUT : Nat := 30 * 60

/-- Dict lookup on the `_sessions` association list. -/
def lookupS : List (String × SessionState) → String → Option SessionState
  | [], _ => none
  | kv :: rest, k => if kv.1 = k then some kv.2 else lookupS rest k

/-- Dict `del` on the `_sessions` association list. -/
def eraseS (m : List (String × SessionState)) (k : String) :
    List (String × SessionState) :=
  m.filter (fun kv => kv.1 ≠ k)

/-- Dict assignment `_sessions[k] = v` (overwrites any previous entry). -/
def insertS (m : List (String × SessionState)) (k : String) (v : SessionState) :
    List (String × SessionState) :=
  (k, v) :: eraseS m k

/-- The fresh `SessionState` built in `SessionManager.create_session`
(`session_manager.py` lines 61-68): empty clues, status `"collecting_info"`,
turn count 0, both timestamps `now`. -/
def newSessionState (sid : String) (now : Nat) : SessionState :=
  { session_id := sid
    accumulated_clues := {}
    session_status := "collecting_info"
    created_at := now
    last_updated := now
    turn_count := 0 }

/-- `SessionManager.create_session` (`session_manager.py` lines 47-73):
allocates a fresh id and stores a new empty session under it. -/
def createSession (m : SessionManagerState) (now : Nat) :
    String × SessionManagerState :=
  let sid := "session-" ++ toString m.nextId
  (sid, { sessions := insertS m.sessions sid (newSessionState sid now)
          nextId := m.nextId + 1 })

/-- `SessionManager.get_session` (`session_manager.py` lines 75-100):
returns `none` for an unknown id; evicts the entry and returns `none` when
strictly more than `SESSION_TIMEOUT` has elapsed since `last_updated`. -/
def getSession (m : SessionManagerState) (now : Nat) (sid : String) :
    Option SessionState × SessionManagerState :=
  match lookupS m.sessions sid with
  | none => (none, m)
  | some s =>
      if now - s.last_updated > SESSION_TIMEOUT then
        (none, { m with sessions := eraseS m.sessions sid })
      else (some s, m)

/-- The body of `SessionManager.update_session` after a session object is in
hand (`session_manager.py` lines 134-151): merge the clues, recompute the
status, increment the turn count, stamp `last_updated`, store the session. -/
def applyUpdate (m : SessionManagerState) (sid : String) (s : SessionState)
    (now : Nat) (pi : ParsedInput) : SessionState × SessionManagerState :=
  let merged := s.accumulated_clues.merge_with pi
  let newStatus := determineSessionStatus merged pi
  let s2 := { s with accumulated_clues := merged
                     session_status := newStatus
                     turn_count := s.turn_count + 1
                     last_updated := now }
  (s2, { m with sessions := insertS m.sessions sid s2 })

/-- `SessionManager.update_session` (`session_manager.py` lines 102-151):
fetch the session through `get_session`; when it is absent (unknown or
expired) create a fresh one (under a newly generated id) and update that
freshly inserted state — `session = self._sessions[session_id]` right after
`create_session` yields exactly `newSessionState sid now`. -/
def updateSession (m : SessionManagerState) (now : Nat) (sid : String)
    (pi : ParsedInput) : SessionState × SessionManagerState :=
  match getSession m now sid with
  | (some s, m1) => applyUpdate m1 sid s now pi
  | (none, m1) =>
      let created := createSession m1 now
      applyUpdate created.2 created.1 (newSessionState created.1 now) now pi

/-- `SessionManager.finalize_session` (`session_manager.py` lines 180-201):
marks an existing session `"completed"` and stamps `last_updated`. -/
def finalizeSession (m : SessionManagerState) (now : Nat) (sid : String) :
    Bool × SessionManagerState :=
  match lookupS m.sessions sid with
  | some s =>
      let s2 := { s with session_status := "completed", last_updated := now }
      (true, { m with sessions := insertS m.sessions sid s2 })
  | none => (false, m)

/-- `SessionManager.cleanup_expired_sessions` (`session_manager.py` lines
219-251): removes sessions past the 30-minute timeout, and completed
sessions that have been idle for more than 5 minutes. -/
def cleanupExpiredSessions (m : SessionManagerState) (now : Nat) :
    SessionManagerState :=
  { m with sessions := m.sessions.filter (fun kv =>
      ¬ (now - kv.2.last_updated > SESSION_TIMEOUT) ∧
      ¬ (kv.2.session_status = "completed" ∧
          now - kv.2.last_updated > 5 * 60)) }

/-! ## String utilities

Python string operations used by the scorer, modelled over the character
list of a `String` (so that they are structurally recursive and fully
executable).  The source lowercases with `str.lower()`, tests containment
with `in`, splits words with `str.split()` and measures length in
characters; the definitions below reproduce those operations (ASCII
lowercasing — the identity on the Korean text appearing in the data). -/

/-- `str.lower()` on a single character (ASCII range, identity elsewhere —
the behaviour of Python's `lower` on the alphabets used by the system). -/
def lowerChar (c : Char) : Char :=
  if 'A' ≤ c ∧ c ≤ 'Z' then Char.ofNat (c.toNat + 32) else c

/-- `str.lower()`. -/
def pyLower (s : String) : String := String.mk (s.data.map lowerChar)

/-- Is `needle` a contiguous sublist of `hay`?  (Python `needle in hay`.) -/
def isSubList (needle : List Char) : List Char → Bool
  | [] => needle.isEmpty
  | c :: rest => needle.isPrefixOf (c :: rest) || isSubList needle rest

/-- Python `needle in hay` on strings. -/
def pyContains (hay needle : String) : Bool := isSubList needle.data hay.data

/-- Helper for `pyWords`: accumulate the current word (reversed) while
scanning the character list, emitting a word at each whitespace run. -/
def splitWsAux (cur : List Char) : List Char → List String
  | [] => if cur.isEmpty then [] else [String.mk cur.reverse]
  | c :: rest =>
      if c.isWhitespace then
        if cur.isEmpty then splitWsAux [] rest
        else String.mk cur.reverse :: splitWsAux [] rest
      else splitWsAux (c :: cur) rest

/-- Python `str.split()` with no separator: maximal whitespace-free runs,
no empty words. -/
def pyWords (s : String) : List String := splitWsAux [] s.data

/-- The Levenshtein edit distance computed by the dynamic-programming table
of `RecommendationEngine._calculate_character_similarity`
(`recommender.py` lines 698-740), in its equivalent recursive form:
`dp[i][j] = dp[i-1][j-1]` on equal characters, otherwise
`1 + min` of the three neighbour cells. -/
def levDistance : List Char → List Char → Nat
  | [], ys => ys.length
  | x :: xs, [] => (x :: xs).length
  | x :: xs, y :: ys =>
      if x = y then levDistance xs ys
      else 1 + min (levDistance xs (y :: ys))
            (min (levDistance (x :: xs) ys) (levDistance xs ys))
termination_by xs ys => xs.length + ys.length

/-- `RecommendationEngine._calculate_character_similarity`
(`recommender.py` lines 698-740): `0` on an empty argument, else
`max 0 (1 - distance / max_len)`. -/
def calcCharacterSimilarity (s1 s2 : String) : ℚ :=
  if s1 = "" ∨ s2 = "" then 0
  else
    let len1 := s1.data.length
    let len2 := s2.data.length
    let maxLen := max len1 len2
    if maxLen = 0 then 1
    else max 0 (1 - (levDistance s1.data s2.data : ℚ) / (maxLen : ℚ))

/-- `RecommendationEngine._calculate_enhanced_string_similarity`
(`recommender.py` lines 654-696): exact match → `1`; containment →
`0.7 + 0.2 * (shorter/longer)`; otherwise a `0.7/0.3` blend of the
word-set Jaccard ratio and the character similarity. -/
def calcEnhancedStringSimilarity (s1 s2 : String) : ℚ :=
  if s1 = "" ∨ s2 = "" then 0
  else if s1 = s2 then 1
  else if pyContains s2 s1 ∨ pyContains s1 s2 then
    let shorter := min s1.data.length s2.data.length
    let longer := max s1.data.length s2.data.length
    let ratio := (shorter : ℚ) / (longer : ℚ)
    7/10 + ratio * (2/10)
  else
    let words1 := (pyWords s1).dedup
    let words2 := (pyWords s2).dedup
    if words1 = [] ∨ words2 = [] then 0
    else
      let common := words1.filter (fun w => words2.contains w)
      let total := words1 ++ words2.filter (fun w => ¬ words1.contains w)
      let wordSimilarity :=
        if total ≠ [] then (common.length : ℚ) / (total.length : ℚ) else 0
      wordSimilarity * (7/10) + calcCharacterSimilarity s1 s2 * (3/10)

/-! ## Candidate records and similarity scoring (`recommender.py`) -/

/-- A row of the `notification_history` table as returned by the search
queries in `database.py` (columns `itemno, process, location, equipType,
statusCode, work_title, work_details, priority`; any of them may be NULL
except `itemno`, which we still carry as an option because the code reads
it with `.get`).  Rows are listed in `created_at DESC` order. -/
structure NotiRecord where
  itemno : Option String := none
  process : Option String := none
  location : Option String := none
  equipType : Option String := none
  statusCode : Option String := none
  work_title : Option String := none
  work_details : Option String := none
  priority : Option String := none
deriving DecidableEq

/-- The local variable `equip_match` of
`RecommendationEngine._calculate_simple_similarity_score`
(`recommender.py` lines 550-556): assigned only when both the query field
and the candidate field are truthy; `none` models "never assigned". -/
def equipFieldMatch (pi : ParsedInput) (n : NotiRecord) : Option ℚ :=
  if present pi.equipment_type ∧ present n.equipType then
    some (calcEnhancedStringSimilarity
      (pyLower (optStr pi.equipment_type)) (pyLower (optStr n.equipType)))
  else none

/-- The local variable `location_match` (`recommender.py` lines 558-566). -/
def locationFieldMatch (pi : ParsedInput) (n : NotiRecord) : Option ℚ :=
  if present pi.location ∧ present n.location then
    some (calcEnhancedStringSimilarity
      (pyLower (optStr pi.location)) (pyLower (optStr n.location)))
  else none

/-- The local variable `status_match` (`recommender.py` lines 568-574). -/
def statusFieldMatch (pi : ParsedInput) (n : NotiRecord) : Option ℚ :=
  if present pi.status_code ∧ present n.statusCode then
    some (calcEnhancedStringSimilarity
      (pyLower (optStr pi.status_code)) (pyLower (optStr n.statusCode)))
  else none

/-- The local variable `priority_match` (`recommender.py` lines 576-582). -/
def priorityFieldMatch (pi : ParsedInput) (n : NotiRecord) : Option ℚ :=
  if pi.priority ≠ "" ∧ present n.priority then
    some (calcEnhancedStringSimilarity
      (pyLower pi.priority) (pyLower (optStr n.priority)))
  else none

/-- Contribution of one optional field match to the accumulated `score`. -/
def matchContribution (m : Option ℚ) (w : ℚ) : ℚ :=
  match m with
  | some v => v * w
  | none => 0

/-- Weight contributed to `total_weight` by one optional field match. -/
def matchWeight (m : Option ℚ) (w : ℚ) : ℚ :=
  match m with
  | some _ => w
  | none => 0

/-- The `final_score` (weighted average) of
`_calculate_simple_similarity_score` before the bonus (`recommender.py`
lines 584-585): `score / total_weight` when `total_weight > 0`, else `0`. -/
def simpleWeightedScore (pi : ParsedInput) (n : NotiRecord) : ℚ :=
  let e := equipFieldMatch pi n
  let l := locationFieldMatch pi n
  let s := statusFieldMatch pi n
  let p := priorityFieldMatch pi n
  let score := matchContribution e (35/100) + matchContribution l (35/100) +
    matchContribution s (2/10) + matchContribution p (1/10)
  let totalWeight := matchWeight e (35/100) + matchWeight l (35/100) +
    matchWeight s (2/10) + matchWeight p (1/10)
  if totalWeight > 0 then score / totalWeight else 0

/-- The evaluation of `equip_match > 0.8 and location_match > 0.8 and
status_match > 0.8` (`recommender.py` line 592) with Python semantics:
left-to-right with short-circuiting, and reading a never-assigned local
raises `NameError`. -/
def bonusCheck (e l s : Option ℚ) : Except PyError Bool :=
  match e with
  | none => .error .nameError
  | some ev =>
      if ev > 8/10 then
        match l with
        | none => .error .nameError
        | some lv =>
            if lv > 8/10 then
              match s with
              | none => .error .nameError
              | some sv => .ok (sv > 8/10)
            else .ok false
      else .ok false

/-- `RecommendationEngine._calculate_simple_similarity_score`
(`recommender.py` lines 531-597): the weighted average over the present
fields, plus a `+0.1` completeness bonus (capped at `1`) when the query's
equipment type, location and status code are all truthy and the three
corresponding match variables are all `> 0.8` — evaluating that bonus
condition raises `NameError` when one of the match variables was never
assigned. -/
def calcSimpleScore (pi : ParsedInput) (n : NotiRecord) : Except PyError ℚ :=
  let finalScore := simpleWeightedScore pi n
  if present pi.equipment_type ∧ present pi.location ∧
      present pi.status_code then
    match bonusCheck (equipFieldMatch pi n) (locationFieldMatch pi n)
        (statusFieldMatch pi n) with
    | .error e => .error e
    | .ok true => .ok (min (finalScore + 1/10) 1)
    | .ok false => .ok finalScore
  else .ok finalScore

/-- `RecommendationEngine._calculate_itemno_similarity_score`
(`recommender.py` lines 599-652): ITEMNO weight `0.7`, status code `0.2`,
priority `0.1`, weighted average over present fields, plus a `+0.2` bonus
(capped at `1`) on an exact (case-insensitive) ITEMNO match.  All locals
read by the bonus test are always bound, so this scorer is total. -/
def calcItemnoScore (pi : ParsedInput) (n : NotiRecord) : ℚ :=
  let i := if present pi.itemno ∧ present n.itemno then
      some (calcEnhancedStringSimilarity
        (pyLower (optStr pi.itemno)) (pyLower (optStr n.itemno)))
    else none
  let s := if present pi.status_code ∧ present n.statusCode then
      some (calcEnhancedStringSimilarity
        (pyLower (optStr pi.status_code)) (pyLower (optStr n.statusCode)))
    else none
  let p := if pi.priority ≠ "" ∧ present n.priority then
      some (calcEnhancedStringSimilarity
        (pyLower pi.priority) (pyLower (optStr n.priority)))
    else none
  let score := matchContribution i (7/10) + matchContribution s (2/10) +
    matchContribution p (1/10)
  let totalWeight := matchWeight i (7/10) + matchWeight s (2/10) +
    matchWeight p (1/10)
  let finalScore := if totalWeight > 0 then score / totalWeight else 0
  if present pi.itemno ∧ present n.itemno ∧
      pyLower (optStr pi.itemno) = pyLower (optStr n.itemno) then
    min (finalScore + 2/10) 1
  else finalScore

/-! ## Candidate retrieval (`database.py`) -/

/-- SQL `col LIKE '%needle%'` on a nullable column: NULL never matches. -/
def optLike (v : Option String) (needle : String) : Bool :=
  match v with
  | none => false
  | some s => pyContains s needle

/-- The `WHERE` clause assembled by
`DatabaseManager.search_similar_notifications` (`database.py` lines
401-444): a conjunct per truthy (already normalized) search term, location
matching against both the `location` and `process` columns. -/
def rowMatchesQuery (loc eq st pr : Option String) (n : NotiRecord) : Bool :=
  (match loc with
   | none => true
   | some l => optLike n.location l || optLike n.process l) &&
  (match eq with
   | none => true
   | some e => optLike n.equipType e) &&
  (match st with
   | none => true
   | some s => optLike n.statusCode s) &&
  (match pr with
   | none => true
   | some p => optLike n.priority p)

/-- `normalize_term(term, category) if term else None` (`database.py` lines
396-399): the LLM-backed `DatabaseManager.normalize_term` is an external
collaborator and is passed in as `normalize : category → term → term`. -/
def normOpt (normalize : String → String → String) (category : String)
    (o : Option String) : Option String :=
  if present o then some (normalize category (optStr o)) else none

/-- The SQL query of `search_similar_notifications` before the result-count
banding (`database.py` lines 401-463): filter by the assembled `WHERE`
clause, order location matches first (`ORDER BY CASE WHEN location LIKE ?
THEN 1 ELSE 2 END, created_at DESC`, on a `db` list already in
`created_at DESC` order), and apply `LIMIT`. -/
def searchSimilarFiltered (normalize : String → String → String)
    (db : List NotiRecord) (eq loc st pr : Option String) (limit : Nat) :
    List NotiRecord :=
  let nLoc := normOpt normalize "location" loc
  let nEq := normOpt normalize "equipment" eq
  let nSt := normOpt normalize "status" st
  let nPr := normOpt normalize "priority" pr
  let matched := db.filter (rowMatchesQuery nLoc nEq nSt nPr)
  let ordered :=
    match nLoc with
    | some l => matched.filter (fun (n : NotiRecord) => optLike n.location l)
        ++ matched.filter (fun (n : NotiRecord) => ! optLike n.location l)
    | none => matched
  ordered.take limit

/-- `DatabaseManager._fallback_search` (`database.py` lines 495-515): the
most recent `limit` rows, with no filter at all. -/
def fallbackSearch (db : List NotiRecord) (limit : Nat) : List NotiRecord :=
  db.take limit

/-- `DatabaseManager.search_similar_notifications` (`database.py` lines
406-496), on the SQL happy path (no `sqlite3.Error`, so the retry loop runs
once): run the filtered query, then band the result by its raw count —
`0` rows falls back to `_fallback_search`, `1..5` rows are returned as is,
and both the `6..15` and the `> 15` band return the first 5 rows. -/
def searchSimilarNotifications (normalize : String → String → String)
    (db : List NotiRecord) (eq loc st pr : Option String) (limit : Nat) :
    List NotiRecord :=
  let results := searchSimilarFiltered normalize db eq loc st pr limit
  if results.length = 0 then fallbackSearch db limit
  else if results.length ≤ 5 then results
  else if results.length ≤ 15 then results.take 5
  else results.take 5

/-- Maximal runs of characters satisfying `p` (`re.findall` of `\d+` or
`[A-Za-z]+`), accumulating the current run reversed. -/
def runsByAux (p : Char → Bool) (cur : List Char) :
    List Char → List String
  | [] => if cur.isEmpty then [] else [String.mk cur.reverse]
  | c :: rest =>
      if p c then runsByAux p (c :: cur) rest
      else if cur.isEmpty then runsByAux p [] rest
      else String.mk cur.reverse :: runsByAux p [] rest

/-- `re.findall(r'\d+', s)`. -/
def digitRuns (s : String) : List String := runsByAux Char.isDigit [] s.data

/-- `re.findall(r'[A-Za-z]+', s)`. -/
def letterRuns (s : String) : List String :=
  runsByAux (fun c => ('A' ≤ c ∧ c ≤ 'Z') ∨ ('a' ≤ c ∧ c ≤ 'z')) [] s.data

/-- `DatabaseManager.search_by_itemno` (`database.py` lines 545-650), the
three-stage ITEMNO search: exact matches, then partial (containment)
matches ordered by position of the match, then pattern matches (rows not
containing the query but containing each of its digit runs and letter
runs); finally truncated to `limit`. -/
def searchByItemno (db : List NotiRecord) (q : String) (limit : Nat) :
    List NotiRecord :=
  let exact := db.filter (fun n => n.itemno = some q)
  let results := exact
  let results :=
    if results.length < limit then
      let part := db.filter (fun n =>
        optLike n.itemno q && ¬ n.itemno = some q)
      let isStart := fun (n : NotiRecord) =>
        (optStr n.itemno).data.take q.data.length = q.data
      let isEnd := fun (n : NotiRecord) =>
        (optStr n.itemno).data.reverse.take q.data.length = q.data.reverse
      let ordered := part.filter (fun n => isStart n) ++
        part.filter (fun n => ¬ isStart n ∧ isEnd n) ++
        part.filter (fun n => ¬ isStart n ∧ ¬ isEnd n)
      results ++ ordered.take (limit - results.length)
    else results
  let results :=
    if results.length < limit then
      let nums := digitRuns q
      let lets := letterRuns q
      if nums ≠ [] ∨ lets ≠ [] then
        let patRows := db.filter (fun n =>
          (¬ optLike n.itemno q) && nums.all (fun d => optLike n.itemno d) &&
            lets.all (fun d => optLike n.itemno d))
        results ++ patRows.take (limit - results.length)
      else results
    else results
  results.take limit

/-! ## The recommendation pipeline (`recommender.py`) -/

/-- `Recommendation` from `models.py` (lines 246-276), as built by
`get_recommendations`: plain strings with the defaults the code
substitutes for NULL columns. -/
structure Recommendation where
  itemno : String
  process : String
  location : String
  cost_center : Option String := none
  equipType : String
  statusCode : String
  priority : String
  score : ℚ
  work_title : String
  work_details : String
deriving DecidableEq

/-- The scenario test `parsed_input.scenario == "S2" and parsed_input.itemno`
used twice in `get_recommendations` (`recommender.py` lines 246, 270). -/
def isItemnoScenario (pi : ParsedInput) : Bool :=
  pi.scenario = "S2" && present pi.itemno

/-- The candidate-retrieval step of `get_recommendations` (`recommender.py`
lines 245-260): ITEMNO search for scenario S2 with an ITEMNO, otherwise the
natural-language search; both with `limit * 2` as SQL limit. -/
def retrieveCandidates (normalize : String → String → String)
    (db : List NotiRecord) (pi : ParsedInput) (limit : Nat) :
    List NotiRecord :=
  if isItemnoScenario pi then searchByItemno db (optStr pi.itemno) (limit * 2)
  else searchSimilarNotifications normalize db pi.equipment_type pi.location
    pi.status_code (some pi.priority) (limit * 2)

/-- The per-candidate scoring step of `get_recommendations`
(`recommender.py` lines 267-279): the ITEMNO scorer for scenario S2
(total), the simple scorer (which can raise) otherwise. -/
def scoreCandidate (pi : ParsedInput) (n : NotiRecord) : Except PyError ℚ :=
  if isItemnoScenario pi then .ok (calcItemnoScore pi n)
  else calcSimpleScore pi n

/-- The scoring loop of `get_recommendations` (`recommender.py` lines
266-279): score the candidates in order; the first raised exception aborts
the whole loop (and is handled by the caller's `except`). -/
def scoreAll (pi : ParsedInput) : List NotiRecord →
    Except PyError (List (NotiRecord × ℚ))
  | [] => .ok []
  | n :: rest =>
      match scoreCandidate pi n with
      | .error e => .error e
      | .ok s =>
          match scoreAll pi rest with
          | .error e => .error e
          | .ok l => .ok ((n, s) :: l)

/-- The `Recommendation(...)` construction of `get_recommendations`
(`recommender.py` lines 282-299): NULL/empty columns replaced by the
defaults; the cost center (from the external Excel lookup `costCenter`)
takes precedence for the displayed process. -/
def buildRecommendation (costCenter : Option String → Option String)
    (n : NotiRecord) (score : ℚ) : Recommendation :=
  let finalPriority := orStr n.priority "일반작업"
  let cc := costCenter n.itemno
  { itemno := optStr n.itemno
    process := orStr cc (orStr n.process "미확인")
    location := optStr n.location
    cost_center := none
    equipType := orStr n.equipType "미확인"
    statusCode := orStr n.statusCode "미확인"
    priority := finalPriority
    score := score
    work_title := optStr n.work_title
    work_details := optStr n.work_details }

/-- `recommendations.sort(key=lambda x: x.score, reverse=True)`
(`recommender.py` line 302): stable descending sort by score. -/
def sortRecsByScoreDesc (recs : List Recommendation) : List Recommendation :=
  recs.mergeSort (fun a b => b.score ≤ a.score)

/-- The LLM enrichment of one returned recommendation (`recommender.py`
lines 307-313): when the work title or details are empty, ask the external
generator `genWork` (modelling `_generate_work_details`, which returns
`None` on any LLM failure) and overwrite both fields on success. -/
def enrichRec (genWork : Recommendation → ParsedInput →
    Option (String × String)) (pi : ParsedInput) (r : Recommendation) :
    Recommendation :=
  if r.work_title = "" ∨ r.work_details = "" then
    match genWork r pi with
    | some wt => { r with work_title := wt.1, work_details := wt.2 }
    | none => r
  else r

/-- The body of the `try` block of `RecommendationEngine.get_recommendations`
(`recommender.py` lines 244-317): retrieve, return `[]` on no candidates,
score (propagating any exception), keep scores `> 0.2`, build the
recommendation objects, sort by score descending, truncate to `limit`,
enrich the survivors. -/
def getRecommendationsCore (normalize : String → String → String)
    (costCenter : Option String → Option String)
    (genWork : Recommendation → ParsedInput → Option (String × String))
    (db : List NotiRecord) (pi : ParsedInput) (limit : Nat) :
    Except PyError (List Recommendation) :=
  let sims := retrieveCandidates normalize db pi limit
  if sims.isEmpty then .ok []
  else
    match scoreAll pi sims with
    | .error e => .error e
    | .ok scored =>
        let recs := (scored.filter (fun x => (1:ℚ)/5 < x.2)).map
          (fun x => buildRecommendation costCenter x.1 x.2)
        let top := (sortRecsByScoreDesc recs).take limit
        .ok (top.map (enrichRec genWork pi))

/-- `RecommendationEngine.get_recommendations` (`recommender.py` lines
213-321): the whole body runs under `try`, and the `except Exception`
handler (lines 319-321) turns every raised error into the empty list. -/
def getRecommendations (normalize : String → String → String)
    (costCenter : Option String → Option String)
    (genWork : Recommendation → ParsedInput → Option (String × String))
    (db : List NotiRecord) (pi : ParsedInput) (limit : Nat) :
    List Recommendation :=
  match getRecommendationsCore normalize costCenter genWork db pi limit with
  | .ok l => l
  | .error _ => []

/-! ## Context-aware parsing (`parser.py`) -/

/-- `ChatMessage` from `models.py` (lines 18-32). -/
structure ChatMessage where
  role : String
  content : String
  timestamp : Option String := none
deriving DecidableEq

/-- The attribute access `accumulated_clues.has_any_clue()` in
`InputParser.parse_input_with_context` (`parser.py` line 139):
`AccumulatedClues` (`models.py` lines 50-194) defines no method named
`has_any_clue`, so the call raises `AttributeError` on every object. -/
def hasAnyClue (_c : AccumulatedClues) : Except PyError Bool :=
  .error .attributeError

/-- `InputParser.parse_input_with_context` (`parser.py` lines 122-150).
The external LLM parsers are passed in: `parse` models
`InputParser.parse_input` and `parseCtx` models
`InputParser._parse_scenario_1_with_context`.  The body loads the session
(when an id is given), enters the context branch only when
`has_any_clue()` returns true, and the surrounding `try/except` falls back
to `parse_input` on any exception. -/
def parseInputWithContext
    (parse : String → List ChatMessage → ParsedInput)
    (parseCtx : String → List ChatMessage → AccumulatedClues → ParsedInput)
    (m : SessionManagerState) (now : Nat) (userInput : String)
    (history : List ChatMessage) (sessionId : Option String) : ParsedInput :=
  let sessionState :=
    match sessionId with
    | some sid => (getSession m now sid).1
    | none => none
  match sessionState with
  | some st =>
      match hasAnyClue st.accumulated_clues with
      | .ok true => parseCtx userInput history st.accumulated_clues
      | .ok false => parse userInput history
      | .error _ => parse userInput history
  | none => parse userInput history

/-! ## Helper lemmas -/

/-- Looking up a key right after erasing it finds nothing. -/
theorem lookupS_eraseS (m : List (String × SessionState)) (k : String) :
    lookupS (eraseS m k) k = none := by
  induction m with
  | nil => rfl
  | cons kv rest ih =>
      by_cases h : kv.1 = k
      · simpa [eraseS, h] using ih
      · simpa [eraseS, lookupS, h] using ih


/-- `mergeStepLocation` mutates only the location field pair. -/
theorem mergeStepLocation_other (m : AccumulatedClues) (p : ParsedInput) :
    (mergeStepLocation m p).equipment_type = m.equipment_type ∧
    (mergeStepLocation m p).equipment_type_confidence =
      m.equipment_type_confidence ∧
    (mergeStepLocation m p).status_code = m.status_code ∧
    (mergeStepLocation m p).status_code_confidence =
      m.status_code_confidence ∧
    (mergeStepLocation m p).priority = m.priority ∧
    (mergeStepLocation m p).priority_confidence = m.priority_confidence ∧
    (mergeStepLocation m p).itemno = m.itemno := by
  unfold mergeStepLocation
  split_ifs <;> exact ⟨rfl, rfl, rfl, rfl, rfl, rfl, rfl⟩

/-- `mergeStepEquipment` mutates only the equipment-type field pair. -/
theorem mergeStepEquipment_other (m : AccumulatedClues) (p : ParsedInput) :
    (mergeStepEquipment m p).location = m.location ∧
    (mergeStepEquipment m p).location_confidence = m.location_confidence ∧
    (mergeStepEquipment m p).status_code = m.status_code ∧
    (mergeStepEquipment m p).status_code_confidence =
      m.status_code_confidence ∧
    (mergeStepEquipment m p).priority = m.priority ∧
    (mergeStepEquipment m p).priority_confidence = m.priority_confidence ∧
    (mergeStepEquipment m p).itemno = m.itemno := by
  unfold mergeStepEquipment
  split_ifs <;> exact ⟨rfl, rfl, rfl, rfl, rfl, rfl, rfl⟩

/-- `mergeStepStatus` mutates only the status-code field pair. -/
theorem mergeStepStatus_other (m : AccumulatedClues) (p : ParsedInput) :
    (mergeStepStatus m p).location = m.location ∧
    (mergeStepStatus m p).location_confidence = m.location_confidence ∧
    (mergeStepStatus m p).equipment_type = m.equipment_type ∧
    (mergeStepStatus m p).equipment_type_confidence =
      m.equipment_type_confidence ∧
    (mergeStepStatus m p).priority = m.priority ∧
    (mergeStepStatus m p).priority_confidence = m.priority_confidence ∧
    (mergeStepStatus m p).itemno = m.itemno := by
  unfold mergeStepStatus
  split_ifs <;> exact ⟨rfl, rfl, rfl, rfl, rfl, rfl, rfl⟩

/-- `mergeStepPriority` mutates only the priority field pair. -/
theorem mergeStepPriority_other (m : AccumulatedClues) (p : ParsedInput) :
    (mergeStepPriority m p).location = m.location ∧
    (mergeStepPriority m p).location_confidence = m.location_confidence ∧
    (mergeStepPriority m p).equipment_type = m.equipment_type ∧
    (mergeStepPriority m p).equipment_type_confidence =
      m.equipment_type_confidence ∧
    (mergeStepPriority m p).status_code = m.status_code ∧
    (mergeStepPriority m p).status_code_confidence =
      m.status_code_confidence ∧
    (mergeStepPriority m p).itemno = m.itemno := by
  unfold mergeStepPriority
  split_ifs <;> exact ⟨rfl, rfl, rfl, rfl, rfl, rfl, rfl⟩

/-- `mergeStepItemno` mutates only the ITEMNO field. -/
theorem mergeStepItemno_other (m : AccumulatedClues) (p : ParsedInput) :
    (mergeStepItemno m p).location = m.location ∧
    (mergeStepItemno m p).location_confidence = m.location_confidence ∧
    (mergeStepItemno m p).equipment_type = m.equipment_type ∧
    (mergeStepItemno m p).equipment_type_confidence =
      m.equipment_type_confidence ∧
    (mergeStepItemno m p).status_code = m.status_code ∧
    (mergeStepItemno m p).status_code_confidence = m.status_code_confidence ∧
    (mergeStepItemno m p).priority = m.priority ∧
    (mergeStepItemno m p).priority_confidence = m.priority_confidence := by
  unfold mergeStepItemno
  split_ifs <;> exact ⟨rfl, rfl, rfl, rfl, rfl, rfl, rfl, rfl⟩

/-- The location field pair of a merge is decided by `mergeStepLocation`
on the original clues. -/
theorem mergeWith_location_eq (c : AccumulatedClues) (p : ParsedInput) :
    (c.merge_with p).location = (mergeStepLocation c p).location ∧
    (c.merge_with p).location_confidence =
      (mergeStepLocation c p).location_confidence := by
  unfold AccumulatedClues.merge_with
  refine ⟨?_, ?_⟩
  · rw [(mergeStepItemno_other _ _).1, (mergeStepPriority_other _ _).1,
      (mergeStepStatus_other _ _).1, (mergeStepEquipment_other _ _).1]
  · rw [(mergeStepItemno_other _ _).2.1, (mergeStepPriority_other _ _).2.1,
      (mergeStepStatus_other _ _).2.1, (mergeStepEquipment_other _ _).2.1]

/-- The equipment-type field pair of a merge is decided by
`mergeStepEquipment`, whose input still carries the original
equipment-type fields. -/
theorem mergeWith_equipment_eq (c : AccumulatedClues) (p : ParsedInput) :
    (c.merge_with p).equipment_type =
      (mergeStepEquipment (mergeStepLocation c p) p).equipment_type ∧
    (c.merge_with p).equipment_type_confidence =
      (mergeStepEquipment (mergeStepLocation c p) p).equipment_type_confidence
    := by
  unfold AccumulatedClues.merge_with
  rw [(mergeStepItemno_other _ _).2.2.1, (mergeStepPriority_other _ _).2.2.1,
    (mergeStepStatus_other _ _).2.2.1, (mergeStepItemno_other _ _).2.2.2.1,
    (mergeStepPriority_other _ _).2.2.2.1, (mergeStepStatus_other _ _).2.2.2.1]
  exact ⟨rfl, rfl⟩

/-- The status-code field pair of a merge is decided by `mergeStepStatus`,
whose input still carries the original status-code fields. -/
theorem mergeWith_status_eq (c : AccumulatedClues) (p : ParsedInput) :
    (c.merge_with p).status_code =
      (mergeStepStatus (mergeStepEquipment (mergeStepLocation c p) p)
        p).status_code ∧
    (c.merge_with p).status_code_confidence =
      (mergeStepStatus (mergeStepEquipment (mergeStepLocation c p) p)
        p).status_code_confidence := by
  unfold AccumulatedClues.merge_with
  rw [(mergeStepItemno_other _ _).2.2.2.2.1,
    (mergeStepPriority_other _ _).2.2.2.2.1,
    (mergeStepItemno_other _ _).2.2.2.2.2.1,
    (mergeStepPriority_other _ _).2.2.2.2.2.1]
  exact ⟨rfl, rfl⟩

/-- The priority field pair of a merge is decided by `mergeStepPriority`,
whose input still carries the original priority fields. -/
theorem mergeWith_priority_eq (c : AccumulatedClues) (p : ParsedInput) :
    (c.merge_with p).priority =
      (mergeStepPriority (mergeStepStatus (mergeStepEquipment
        (mergeStepLocation c p) p) p) p).priority ∧
    (c.merge_with p).priority_confidence =
      (mergeStepPriority (mergeStepStatus (mergeStepEquipment
        (mergeStepLocation c p) p) p) p).priority_confidence := by
  unfold AccumulatedClues.merge_with
  rw [(mergeStepItemno_other _ _).2.2.2.2.2.2.1,
    (mergeStepItemno_other _ _).2.2.2.2.2.2.2]
  exact ⟨rfl, rfl⟩

/-- The conditions of `mergeStepEquipment`, `mergeStepStatus` and
`mergeStepPriority` inside a merge read the original field values: the
preceding steps do not touch them. -/
theorem mergeWith_inputs_eq (c : AccumulatedClues) (p : ParsedInput) :
    ((mergeStepLocation c p).equipment_type = c.equipment_type ∧
      (mergeStepLocation c p).equipment_type_confidence =
        c.equipment_type_confidence) ∧
    ((mergeStepEquipment (mergeStepLocation c p) p).status_code =
        c.status_code ∧
      (mergeStepEquipment (mergeStepLocation c p) p).status_code_confidence =
        c.status_code_confidence) ∧
    ((mergeStepStatus (mergeStepEquipment (mergeStepLocation c p) p)
        p).priority = c.priority ∧
      (mergeStepStatus (mergeStepEquipment (mergeStepLocation c p) p)
        p).priority_confidence = c.priority_confidence) := by
  refine ⟨⟨(mergeStepLocation_other c p).1, (mergeStepLocation_other c p).2.1⟩,
    ⟨?_, ?_⟩, ⟨?_, ?_⟩⟩
  · rw [(mergeStepEquipment_other _ _).2.2.1,
      (mergeStepLocation_other _ _).2.2.1]
  · rw [(mergeStepEquipment_other _ _).2.2.2.1,
      (mergeStepLocation_other _ _).2.2.2.1]
  · rw [(mergeStepStatus_other _ _).2.2.2.2.1,
      (mergeStepEquipment_other _ _).2.2.2.2.1,
      (mergeStepLocation_other _ _).2.2.2.2.1]
  · rw [(mergeStepStatus_other _ _).2.2.2.2.2.1,
      (mergeStepEquipment_other _ _).2.2.2.2.2.1,
      (mergeStepLocation_other _ _).2.2.2.2.2.1]

/-- The ITEMNO of a merge is the incoming one when truthy, the stored one
otherwise (`models.py` lines 134-136). -/
theorem mergeWith_itemno (c : AccumulatedClues) (p : ParsedInput) :
    (present p.itemno = true → (c.merge_with p).itemno = p.itemno) ∧
    (¬ present p.itemno = true → (c.merge_with p).itemno = c.itemno) := by
  have hbase : (mergeStepPriority (mergeStepStatus (mergeStepEquipment
      (mergeStepLocation c p) p) p) p).itemno = c.itemno := by
    rw [(mergeStepPriority_other _ _).2.2.2.2.2.2,
      (mergeStepStatus_other _ _).2.2.2.2.2.2,
      (mergeStepEquipment_other _ _).2.2.2.2.2.2,
      (mergeStepLocation_other _ _).2.2.2.2.2.2]
  unfold AccumulatedClues.merge_with mergeStepItemno
  split_ifs with h
  · exact ⟨fun _ => rfl, fun hn => absurd h hn⟩
  · exact ⟨fun hp => absurd hp h, fun _ => hbase⟩

/-- Behaviour of one merge step on its own field pair, location case. -/
theorem mergeStepLocation_spec (m : AccumulatedClues) (p : ParsedInput) :
    ((present p.location ∧ (¬ present m.location ∨
        p.confidence > m.location_confidence + 1/10)) →
      (mergeStepLocation m p).location = p.location ∧
      (mergeStepLocation m p).location_confidence = p.confidence) ∧
    (¬ (present p.location ∧ (¬ present m.location ∨
        p.confidence > m.location_confidence + 1/10)) →
      (mergeStepLocation m p).location = m.location ∧
      (mergeStepLocation m p).location_confidence = m.location_confidence)
    := by
  unfold mergeStepLocation
  split_ifs with h
  · exact ⟨fun _ => ⟨rfl, rfl⟩, fun hn => absurd h hn⟩
  · exact ⟨fun hc => absurd hc h, fun _ => ⟨rfl, rfl⟩⟩

/-- Behaviour of one merge step on its own field pair, equipment case. -/
theorem mergeStepEquipment_spec (m : AccumulatedClues) (p : ParsedInput) :
    ((present p.equipment_type ∧ (¬ present m.equipment_type ∨
        p.confidence > m.equipment_type_confidence + 1/10)) →
      (mergeStepEquipment m p).equipment_type = p.equipment_type ∧
      (mergeStepEquipment m p).equipment_type_confidence = p.confidence) ∧
    (¬ (present p.equipment_type ∧ (¬ present m.equipment_type ∨
        p.confidence > m.equipment_type_confidence + 1/10)) →
      (mergeStepEquipment m p).equipment_type = m.equipment_type ∧
      (mergeStepEquipment m p).equipment_type_confidence =
        m.equipment_type_confidence) := by
  unfold mergeStepEquipment
  split_ifs with h
  · exact ⟨fun _ => ⟨rfl, rfl⟩, fun hn => absurd h hn⟩
  · exact ⟨fun hc => absurd hc h, fun _ => ⟨rfl, rfl⟩⟩

/-- Behaviour of one merge step on its own field pair, status case. -/
theorem mergeStepStatus_spec (m : AccumulatedClues) (p : ParsedInput) :
    ((present p.status_code ∧ (¬ present m.status_code ∨
        p.confidence > m.status_code_confidence + 1/10)) →
      (mergeStepStatus m p).status_code = p.status_code ∧
      (mergeStepStatus m p).status_code_confidence = p.confidence) ∧
    (¬ (present p.status_code ∧ (¬ present m.status_code ∨
        p.confidence > m.status_code_confidence + 1/10)) →
      (mergeStepStatus m p).status_code = m.status_code ∧
      (mergeStepStatus m p).status_code_confidence =
        m.status_code_confidence) := by
  unfold mergeStepStatus
  split_ifs with h
  · exact ⟨fun _ => ⟨rfl, rfl⟩, fun hn => absurd h hn⟩
  · exact ⟨fun hc => absurd hc h, fun _ => ⟨rfl, rfl⟩⟩

/-- Behaviour of one merge step on its own field pair, priority case. -/
theorem mergeStepPriority_spec (m : AccumulatedClues) (p : ParsedInput) :
    ((p.priority ≠ "" ∧ p.priority ≠ "일반작업" ∧ (¬ present m.priority ∨
        p.confidence > m.priority_confidence + 1/10)) →
      (mergeStepPriority m p).priority = some p.priority ∧
      (mergeStepPriority m p).priority_confidence = p.confidence) ∧
    (¬ (p.priority ≠ "" ∧ p.priority ≠ "일반작업" ∧ (¬ present m.priority ∨
        p.confidence > m.priority_confidence + 1/10)) →
      (mergeStepPriority m p).priority = m.priority ∧
      (mergeStepPriority m p).priority_confidence = m.priority_confidence)
    := by
  unfold mergeStepPriority
  split_ifs with h
  · exact ⟨fun _ => ⟨rfl, rfl⟩, fun hn => absurd h hn⟩
  · exact ⟨fun hc => absurd hc h, fun _ => ⟨rfl, rfl⟩⟩

/-! ## C3 — the clue-merging rules -/

/-- C3: merging overwrites each of location, equipment type and status code
(value and confidence) exactly when the incoming value is truthy and the
existing value is absent or the incoming confidence beats the stored field
confidence by more than `0.1`; priority follows the same rule but an
incoming `"일반작업"` (the neutral default) is never accepted; ITEMNO is
overwritten unconditionally whenever the incoming one is truthy, and kept
otherwise. -/
theorem c3_merge_rules (c : AccumulatedClues) (p : ParsedInput) :
    ((present p.location ∧ (¬ present c.location ∨
        p.confidence > c.location_confidence + 1/10)) →
      (c.merge_with p).location = p.location ∧
      (c.merge_with p).location_confidence = p.confidence) ∧
    (¬ (present p.location ∧ (¬ present c.location ∨
        p.confidence > c.location_confidence + 1/10)) →
      (c.merge_with p).location = c.location ∧
      (c.merge_with p).location_confidence = c.location_confidence) ∧
    ((present p.equipment_type ∧ (¬ present c.equipment_type ∨
        p.confidence > c.equipment_type_confidence + 1/10)) →
      (c.merge_with p).equipment_type = p.equipment_type ∧
      (c.merge_with p).equipment_type_confidence = p.confidence) ∧
    (¬ (present p.equipment_type ∧ (¬ present c.equipment_type ∨
        p.confidence > c.equipment_type_confidence + 1/10)) →
      (c.merge_with p).equipment_type = c.equipment_type ∧
      (c.merge_with p).equipment_type_confidence =
        c.equipment_type_confidence) ∧
    ((present p.status_code ∧ (¬ present c.status_code ∨
        p.confidence > c.status_code_confidence + 1/10)) →
      (c.merge_with p).status_code = p.status_code ∧
      (c.merge_with p).status_code_confidence = p.confidence) ∧
    (¬ (present p.status_code ∧ (¬ present c.status_code ∨
        p.confidence > c.status_code_confidence + 1/10)) →
      (c.merge_with p).status_code = c.status_code ∧
      (c.merge_with p).status_code_confidence = c.status_code_confidence) ∧
    ((p.priority ≠ "" ∧ p.priority ≠ "일반작업" ∧ (¬ present c.priority ∨
        p.confidence > c.priority_confidence + 1/10)) →
      (c.merge_with p).priority = some p.priority ∧
      (c.merge_with p).priority_confidence = p.confidence) ∧
    (¬ (p.priority ≠ "" ∧ p.priority ≠ "일반작업" ∧ (¬ present c.priority ∨
        p.confidence > c.priority_confidence + 1/10)) →
      (c.merge_with p).priority = c.priority ∧
      (c.merge_with p).priority_confidence = c.priority_confidence) ∧
    (present p.itemno = true → (c.merge_with p).itemno = p.itemno) ∧
    (¬ present p.itemno = true → (c.merge_with p).itemno = c.itemno) := by
  obtain ⟨hl1, hl2⟩ := mergeWith_location_eq c p
  obtain ⟨he1, he2⟩ := mergeWith_equipment_eq c p
  obtain ⟨hs1, hs2⟩ := mergeWith_status_eq c p
  obtain ⟨hp1, hp2⟩ := mergeWith_priority_eq c p
  obtain ⟨⟨hie1, hie2⟩, ⟨his1, his2⟩, ⟨hip1, hip2⟩⟩ := mergeWith_inputs_eq c p
  rw [hl1, hl2, he1, he2, hs1, hs2, hp1, hp2]
  refine ⟨?_, ?_, ?_, ?_, ?_, ?_, ?_, ?_, (mergeWith_itemno c p).1,
    (mergeWith_itemno c p).2⟩
  · exact (mergeStepLocation_spec c p).1
  · exact (mergeStepLocation_spec c p).2
  · intro h
    exact (mergeStepEquipment_spec _ p).1 (by rw [hie1, hie2]; exact h)
  · intro h
    have := (mergeStepEquipment_spec _ p).2 (by rw [hie1, hie2]; exact h)
    rw [hie1, hie2] at this
    exact this
  · intro h
    exact (mergeStepStatus_spec _ p).1 (by rw [his1, his2]; exact h)
  · intro h
    have := (mergeStepStatus_spec _ p).2 (by rw [his1, his2]; exact h)
    rw [his1, his2] at this
    exact this
  · intro h
    exact (mergeStepPriority_spec _ p).1 (by rw [hip1, hip2]; exact h)
  · intro h
    have := (mergeStepPriority_spec _ p).2 (by rw [hip1, hip2]; exact h)
    rw [hip1, hip2] at this
    exact this

/-- Concrete clue state for exercising `c3_merge_rules`. -/
def cw3 : AccumulatedClues :=
  { location := some "No.1 PE", location_confidence := 1/2
    equipment_type := some "Pump", equipment_type_confidence := 9/10 }

/-- Concrete incoming input for exercising `c3_merge_rules`. -/
def pw3 : ParsedInput :=
  { scenario := "S1", location := some "No.2 PE",
    equipment_type := some "Vessel", status_code := some "leak",
    priority := "일반작업", itemno := some "X-100", confidence := 13/20 }

/-- Witness for `c3_merge_rules`: the location is overwritten
(`0.65 > 0.5 + 0.1`), the equipment type is kept (`0.65 ≤ 0.9 + 0.1`), an
incoming default priority is rejected, the ITEMNO is copied. -/
theorem c3_merge_rules_witness :
    ((cw3.merge_with pw3).location = pw3.location ∧
      (cw3.merge_with pw3).location_confidence = pw3.confidence) ∧
    ((cw3.merge_with pw3).equipment_type = cw3.equipment_type ∧
      (cw3.merge_with pw3).equipment_type_confidence =
        cw3.equipment_type_confidence) ∧
    ((cw3.merge_with pw3).priority = cw3.priority ∧
      (cw3.merge_with pw3).priority_confidence = cw3.priority_confidence) ∧
    (cw3.merge_with pw3).itemno = pw3.itemno := by
  refine ⟨(c3_merge_rules cw3 pw3).1 ?_,
    (c3_merge_rules cw3 pw3).2.2.2.1 ?_,
    (c3_merge_rules cw3 pw3).2.2.2.2.2.2.2.1 ?_,
    (c3_merge_rules cw3 pw3).2.2.2.2.2.2.2.2.1 ?_⟩
  · refine ⟨by simp [pw3, present], Or.inr ?_⟩
    show (13:ℚ)/20 > 1/2 + 1/10
    norm_num
  · rintro ⟨-, h | h⟩
    · exact h (by simp [cw3, present])
    · have hx : ¬ ((13:ℚ)/20 > 9/10 + 1/10) := by norm_num
      exact hx h
  · rintro ⟨-, h, -⟩
    exact h rfl
  · simp [pw3, present]

/-! ## C4 — session status derivation -/

/-- Incoming input exhibiting the gap in C4: descriptive content is absent,
no ITEMNO anywhere, but the scenario label is `"S2"`. -/
def pw4 : ParsedInput := { scenario := "S2" }

/-- Counterexample to C4 as stated: the derived status is `"finalizing"`
although neither the incoming input nor the clues carry an ITEMNO — the
code keys on the scenario label `"S2"`, not on the presence of an
ITEMNO. -/
theorem c4_counterexample :
    determineSessionStatus {} pw4 = "finalizing" ∧
    pw4.itemno = none ∧ ({} : AccumulatedClues).itemno = none := by
  refine ⟨?_, rfl, rfl⟩
  simp [determineSessionStatus, pw4]

/-- C4 (amended): the derived status is `"finalizing"` iff the incoming
scenario is `"S2"` or the clues carry a truthy ITEMNO; otherwise
`"recommending"` iff location, equipment type and status code are all
present; otherwise `"collecting_info"`.  Because `merge_with` copies a
truthy incoming ITEMNO into the clues unconditionally, an incoming ITEMNO
always yields `"finalizing"` when the status is derived from the merged
clues, as `update_session` does. -/
theorem c4_amended_status (clues : AccumulatedClues) (pi : ParsedInput) :
    (determineSessionStatus clues pi = "finalizing" ↔
      (pi.scenario = "S2" ∨ present clues.itemno = true)) ∧
    (determineSessionStatus clues pi = "recommending" ↔
      (¬ (pi.scenario = "S2" ∨ present clues.itemno = true) ∧
        clues.has_sufficient_info = true)) ∧
    (determineSessionStatus clues pi = "collecting_info" ↔
      (¬ (pi.scenario = "S2" ∨ present clues.itemno = true) ∧
        ¬ clues.has_sufficient_info = true)) ∧
    (present pi.itemno = true →
      determineSessionStatus (clues.merge_with pi) pi = "finalizing") := by
  refine ⟨?_, ?_, ?_, ?_⟩
  · unfold determineSessionStatus
    split_ifs with h1 h2 <;> simp_all
  · unfold determineSessionStatus
    split_ifs with h1 h2 <;> simp_all
  · unfold determineSessionStatus
    split_ifs with h1 h2 <;> simp_all
  · intro h
    have hi : (clues.merge_with pi).itemno = pi.itemno :=
      (mergeWith_itemno clues pi).1 h
    unfold determineSessionStatus
    rw [hi]
    simp [h]

/-- Concrete input for exercising `c4_amended_status`: scenario `"S1"`
with an ITEMNO. -/
def pw4b : ParsedInput := { scenario := "S1", itemno := some "Y-MV1035" }

/-- Witness for `c4_amended_status`: with empty clues and an incoming
ITEMNO under scenario `"S1"`, the pre-merge status is `"collecting_info"`
(the code ignores the incoming ITEMNO itself), while the post-merge status
is `"finalizing"`. -/
theorem c4_amended_status_witness :
    determineSessionStatus {} pw4b = "collecting_info" ∧
    determineSessionStatus (AccumulatedClues.merge_with {} pw4b) pw4b =
      "finalizing" := by
  constructor
  · exact (c4_amended_status {} pw4b).2.2.1.mpr
      (by simp [pw4b, present, AccumulatedClues.has_sufficient_info])
  · exact (c4_amended_status {} pw4b).2.2.2 (by simp [pw4b, present])

/-! ## C5 — `Completed` is not terminal for `update_session` -/

/-- A completed but unexpired session. -/
def sw5 : SessionState :=
  { session_id := "s", accumulated_clues := {},
    session_status := "completed", created_at := 0, last_updated := 1000,
    turn_count := 2 }

/-- A session store holding only the completed session `sw5`. -/
def mw5 : SessionManagerState := { sessions := [("s", sw5)], nextId := 0 }

/-- An incoming input carrying no information at all. -/
def piw5 : ParsedInput := { scenario := "S1", priority := "" }

/-- Counterexample to C5 as stated: updating a `"completed"` session does
not leave it unchanged — the turn count increments and the status is
recomputed (dropping `"completed"`). -/
theorem c5_counterexample :
    lookupS mw5.sessions "s" = some sw5 ∧
    sw5.session_status = "completed" ∧ sw5.turn_count = 2 ∧
    (updateSession mw5 1500 "s" piw5).1.turn_count = 3 ∧
    (updateSession mw5 1500 "s" piw5).1.session_status = "collecting_info"
    := by
  refine ⟨?_, rfl, rfl, ?_, ?_⟩
  · simp [mw5, lookupS]
  · simp [updateSession, getSession, mw5, sw5, lookupS, SESSION_TIMEOUT,
      applyUpdate]
  · simp [updateSession, getSession, mw5, sw5, lookupS, SESSION_TIMEOUT,
      applyUpdate, determineSessionStatus, AccumulatedClues.merge_with,
      mergeStepItemno, mergeStepPriority, mergeStepStatus,
      mergeStepEquipment, mergeStepLocation, piw5, present,
      AccumulatedClues.has_sufficient_info]

/-- C5 (amended): a `"completed"` session that has not yet expired is
treated by `update_session` exactly like a live one — the clues are merged,
the status is recomputed by the status machine (so `"completed"` is lost),
the turn count increments and `last_updated` is stamped.  Only
`cleanup_expired_sessions` treats `"completed"` specially (eviction after a
further 5 idle minutes). -/
theorem c5_amended_update (m : SessionManagerState) (sid : String)
    (s : SessionState) (now : Nat) (pi : ParsedInput)
    (hlk : lookupS m.sessions sid = some s)
    (hcomp : s.session_status = "completed")
    (hfresh : ¬ (now - s.last_updated > SESSION_TIMEOUT)) :
    (updateSession m now sid pi).1.accumulated_clues =
      s.accumulated_clues.merge_with pi ∧
    (updateSession m now sid pi).1.session_status =
      determineSessionStatus (s.accumulated_clues.merge_with pi) pi ∧
    (updateSession m now sid pi).1.turn_count = s.turn_count + 1 ∧
    (updateSession m now sid pi).1.last_updated = now := by
  unfold updateSession getSession
  rw [hlk]
  simp [hfresh, applyUpdate]

/-- Witness for `c5_amended_update` at the concrete completed session
`sw5`. -/
theorem c5_amended_update_witness :
    (updateSession mw5 1500 "s" piw5).1.accumulated_clues =
      sw5.accumulated_clues.merge_with piw5 ∧
    (updateSession mw5 1500 "s" piw5).1.session_status =
      determineSessionStatus (sw5.accumulated_clues.merge_with piw5) piw5 ∧
    (updateSession mw5 1500 "s" piw5).1.turn_count = sw5.turn_count + 1 ∧
    (updateSession mw5 1500 "s" piw5).1.last_updated = 1500 :=
  c5_amended_update mw5 "s" sw5 1500 piw5 (by simp [mw5, lookupS]) rfl
    (by decide)

/-! ## C6 — session TTL and transparent re-creation -/

/-- C6: when strictly more than the 30-minute TTL has elapsed since the
session's last update, `get_session` returns nothing and evicts the entry,
and a subsequent `update_session` for that id does not fail but produces a
fresh session whose turn count equals 1 after the update. -/
theorem c6_session_ttl (m : SessionManagerState) (sid : String)
    (s : SessionState) (now : Nat) (pi : ParsedInput)
    (hlk : lookupS m.sessions sid = some s)
    (hexp : now - s.last_updated > SESSION_TIMEOUT) :
    (getSession m now sid).1 = none ∧
    lookupS (getSession m now sid).2.sessions sid = none ∧
    (updateSession m now sid pi).1.turn_count = 1 ∧
    (updateSession m now sid pi).1.created_at = now := by
  refine ⟨?_, ?_, ?_, ?_⟩
  · unfold getSession
    rw [hlk]
    simp [hexp]
  · unfold getSession
    rw [hlk]
    simp only [hexp, if_pos]
    exact lookupS_eraseS m.sessions sid
  · unfold updateSession getSession
    rw [hlk]
    simp [hexp, applyUpdate, createSession, newSessionState]
  · unfold updateSession getSession
    rw [hlk]
    simp [hexp, applyUpdate, createSession, newSessionState]

/-- An expired session: last updated at time 0, queried at time 2000
(`2000 - 0 > 1800`). -/
def sw6 : SessionState :=
  { session_id := "t", accumulated_clues := {},
    session_status := "recommending", created_at := 0, last_updated := 0,
    turn_count := 7 }

/-- A session store holding only the expired session `sw6`. -/
def mw6 : SessionManagerState := { sessions := [("t", sw6)], nextId := 4 }

/-- Witness for `c6_session_ttl` at the concrete expired session `sw6`. -/
theorem c6_session_ttl_witness :
    (getSession mw6 2000 "t").1 = none ∧
    lookupS (getSession mw6 2000 "t").2.sessions "t" = none ∧
    (updateSession mw6 2000 "t" piw5).1.turn_count = 1 ∧
    (updateSession mw6 2000 "t" piw5).1.created_at = 2000 :=
  c6_session_ttl mw6 "t" sw6 2000 piw5 (by simp [mw6, lookupS]) (by decide)

/-! ## C9 — context-aware parsing always degenerates to plain parsing -/

/-- C9: for every session store, time, input, history and session id —
including sessions that already hold accumulated clues —
`parse_input_with_context` returns exactly what plain `parse_input`
returns: its context branch calls the non-existent method
`has_any_clue()`, the resulting `AttributeError` is caught, and the
handler falls back to context-free parsing, so session context never
influences parsing. -/
theorem c9_context_parse_is_plain_parse
    (parse : String → List ChatMessage → ParsedInput)
    (parseCtx : String → List ChatMessage → AccumulatedClues → ParsedInput)
    (m : SessionManagerState) (now : Nat) (userInput : String)
    (history : List ChatMessage) (sessionId : Option String) :
    parseInputWithContext parse parseCtx m now userInput history sessionId =
      parse userInput history := by
  unfold parseInputWithContext hasAnyClue
  cases sessionId with
  | none => rfl
  | some sid =>
      cases h : (getSession m now sid).1 with
      | none => simp [h]
      | some st => simp [h]

/-! ## C8 — totality of the recommendation operation -/

/-- A successful run of the recommendation core returns at most `limit`
recommendations. -/
theorem getRecommendationsCore_length (normalize : String → String → String)
    (costCenter : Option String → Option String)
    (genWork : Recommendation → ParsedInput → Option (String × String))
    (db : List NotiRecord) (pi : ParsedInput) (limit : Nat)
    (rs : List Recommendation)
    (h : getRecommendationsCore normalize costCenter genWork db pi limit =
      .ok rs) : rs.length ≤ limit := by
  unfold getRecommendationsCore at h
  by_cases hs : (retrieveCandidates normalize db pi limit).isEmpty
  · rw [if_pos hs] at h
    cases h
    exact Nat.zero_le _
  · rw [if_neg hs] at h
    cases hsc : scoreAll pi (retrieveCandidates normalize db pi limit) with
    | error e => rw [hsc] at h; cases h
    | ok scored =>
        rw [hsc] at h
        cases h
        calc (((sortRecsByScoreDesc _).take limit).map
            (enrichRec genWork pi)).length
            = ((sortRecsByScoreDesc _).take limit).length :=
              List.length_map _ _
          _ ≤ limit := List.length_take_le _ _

/-- C8: the recommendation operation is total — for every input it returns
a plain (possibly empty) list; whenever the underlying computation raises,
the `except` handler yields the empty list, and a successful run returns
its (at most `limit`-long) list unchanged.  Insufficient clues simply mean
fewer search filters or no candidates, which surface as `[]`, never as an
error. -/
theorem c8_recommendations_total (normalize : String → String → String)
    (costCenter : Option String → Option String)
    (genWork : Recommendation → ParsedInput → Option (String × String))
    (db : List NotiRecord) (pi : ParsedInput) (limit : Nat) :
    (getRecommendations normalize costCenter genWork db pi limit = [] ∧
      ∃ e, getRecommendationsCore normalize costCenter genWork db pi limit =
        .error e) ∨
    (∃ rs, getRecommendationsCore normalize costCenter genWork db pi limit =
        .ok rs ∧
      getRecommendations normalize costCenter genWork db pi limit = rs ∧
      rs.length ≤ limit) := by
  unfold getRecommendations
  cases hcore : getRecommendationsCore normalize costCenter genWork db pi
      limit with
  | error e => exact Or.inl ⟨rfl, e, rfl⟩
  | ok rs =>
      exact Or.inr ⟨rs, rfl, rfl,
        getRecommendationsCore_length normalize costCenter genWork db pi
          limit rs hcore⟩

/-! ## C2 — result banding by count -/

/-- C2: on the ranked candidate list (the post-cutoff recommendations
sorted by score, descending — stable, as Python's `sort`), the code's
truncation `[:5]` realises exactly the banding contract: `1 ≤ N ≤ 5`
returns the whole ranked list; `6 ≤ N ≤ 15` returns exactly the leading 5;
and for `N > 15` the result coincides with first truncating to the top 15
and then taking the leading 5 of those, in score-descending order. -/
theorem c2_result_banding (recs : List Recommendation)
    (hcut : ∀ r ∈ recs, (1:ℚ)/5 < r.score) :
    List.Pairwise (fun a b => b.score ≤ a.score) (sortRecsByScoreDesc recs) ∧
    (sortRecsByScoreDesc recs).Perm recs ∧
    (1 ≤ recs.length → recs.length ≤ 5 →
      (sortRecsByScoreDesc recs).take 5 = sortRecsByScoreDesc recs) ∧
    (6 ≤ recs.length → recs.length ≤ 15 →
      ((sortRecsByScoreDesc recs).take 5).length = 5) ∧
    (15 < recs.length →
      (sortRecsByScoreDesc recs).take 5 =
        ((sortRecsByScoreDesc recs).take 15).take 5) := by
  refine ⟨?_, ?_, ?_, ?_, ?_⟩
  · have := @List.sorted_mergeSort Recommendation
      (fun a b : Recommendation => decide (b.score ≤ a.score))
      (fun a b c hab hbc => by
        simp only [decide_eq_true_eq] at *
        exact le_trans hbc hab)
      (fun a b => by
        simp only [Bool.or_eq_true, decide_eq_true_eq]
        exact le_total b.score a.score)
      recs
    unfold sortRecsByScoreDesc
    exact List.Pairwise.imp (fun h => by simpa using h) this
  · exact List.mergeSort_perm recs _
  · intro _ h5
    apply List.take_of_length_le
    rw [sortRecsByScoreDesc, List.length_mergeSort]
    exact h5
  · intro h6 _
    rw [List.length_take, sortRecsByScoreDesc, List.length_mergeSort]
    omega
  · intro _
    rw [List.take_take]
    norm_num

/-- A fixed recommendation used to build concrete ranked lists. -/
def wrec : Recommendation :=
  { itemno := "44043-CA1-6", process := "P", location := "L",
    equipType := "E", statusCode := "C", priority := "일반작업",
    score := 1, work_title := "t", work_details := "d" }

/-- Witness for `c2_result_banding` on lists of 3, 10 and 20 scored
candidates (each with score `1 > 0.2`). -/
theorem c2_result_banding_witness :
    ((sortRecsByScoreDesc (List.replicate 3 wrec)).take 5 =
      sortRecsByScoreDesc (List.replicate 3 wrec)) ∧
    ((sortRecsByScoreDesc (List.replicate 10 wrec)).take 5).length = 5 ∧
    (sortRecsByScoreDesc (List.replicate 20 wrec)).take 5 =
      ((sortRecsByScoreDesc (List.replicate 20 wrec)).take 15).take 5 := by
  have hc : ∀ n, ∀ r ∈ List.replicate n wrec, (1:ℚ)/5 < r.score := by
    intro n r hr
    rw [List.eq_of_mem_replicate hr]
    norm_num [wrec]
  refine ⟨(c2_result_banding (List.replicate 3 wrec) (hc 3)).2.2.1
      (by simp) (by simp),
    (c2_result_banding (List.replicate 10 wrec) (hc 10)).2.2.2.1
      (by simp) (by simp),
    (c2_result_banding (List.replicate 20 wrec) (hc 20)).2.2.2.2
      (by simp)⟩

/-! ## Similarity evaluation helpers -/

/-- Exact match: the scorer returns `1` on identical nonempty strings. -/
theorem enhancedSim_self (s : String) (h : ¬ s = "") :
    calcEnhancedStringSimilarity s s = 1 := by
  rw [calcEnhancedStringSimilarity, if_neg (by simp [h]), if_pos rfl]

/-- On two nonempty, distinct, non-containing strings that each split into
a single word, and with distinct words, the similarity degenerates to
`0.3` times the character similarity (the word-overlap term is `0`). -/
theorem enhancedSim_disjoint_singletons (s1 s2 w1 w2 : String)
    (h1 : ¬ s1 = "") (h2 : ¬ s2 = "") (hne : ¬ s1 = s2)
    (hc1 : pyContains s2 s1 = false) (hc2 : pyContains s1 s2 = false)
    (hw1 : pyWords s1 = [w1]) (hw2 : pyWords s2 = [w2]) (hwne : ¬ w1 = w2) :
    calcEnhancedStringSimilarity s1 s2 =
      calcCharacterSimilarity s1 s2 * (3/10) := by
  rw [calcEnhancedStringSimilarity, if_neg (by simp [h1, h2]), if_neg hne,
    if_neg (by simp [hc1, hc2])]
  rw [hw1, hw2]
  simp [List.dedup, hwne, Ne.symm hwne]

/-- Characterisation of the bonus condition evaluation: it yields
`.ok true` exactly when all three match variables were assigned and each
exceeds `0.8`. -/
theorem bonusCheck_eq_ok_true_iff (e l s : Option ℚ) :
    bonusCheck e l s = .ok true ↔
      (∃ ev, e = some ev ∧ ev > 8/10) ∧ (∃ lv, l = some lv ∧ lv > 8/10) ∧
      (∃ sv, s = some sv ∧ sv > 8/10) := by
  rcases e with _ | ev <;> rcases l with _ | lv <;> rcases s with _ | sv <;>
    simp only [bonusCheck] <;>
    (first
      | (split_ifs <;> simp_all)
      | simp_all)

/-! ## C7 — the completeness bonus -/

/-- Query whose three descriptive fields are all present, with a truthy
priority. -/
def piw7 : ParsedInput :=
  { scenario := "S1", location := some "a", equipment_type := some "b",
    status_code := some "c", priority := "x" }

/-- Candidate matching the query exactly on the three descriptive fields
but with an unrelated priority. -/
def nw7 : NotiRecord :=
  { itemno := some "N7", process := some "P", location := some "a",
    equipType := some "b", statusCode := some "c", priority := some "q",
    work_title := some "T", work_details := some "D" }

/-- `calcCharacterSimilarity "x" "q" = 0` (edit distance 1 over length 1). -/
theorem charSim_x_q : calcCharacterSimilarity "x" "q" = 0 := by
  have hd : levDistance "x".data "q".data = 1 := by
    show levDistance ['x'] ['q'] = 1
    simp [levDistance]
  rw [calcCharacterSimilarity, if_neg (by simp)]
  simp only [hd]
  norm_num

/-- The priority similarity `"x"` vs `"q"` is `0`. -/
theorem prioritySim_x_q : calcEnhancedStringSimilarity "x" "q" = 0 := by
  rw [enhancedSim_disjoint_singletons "x" "q" "x" "q" (by decide) (by decide)
    (by decide) rfl rfl rfl rfl (by decide), charSim_x_q]
  norm_num

/-- The equipment match variable at `piw7`, `nw7`. -/
theorem equipMatch_w7 : equipFieldMatch piw7 nw7 = some 1 := by
  rw [equipFieldMatch, if_pos (by exact ⟨by decide, by decide⟩)]
  show some (calcEnhancedStringSimilarity (pyLower "b") (pyLower "b")) = _
  rw [show pyLower "b" = "b" from rfl, enhancedSim_self "b" (by decide)]

/-- The location match variable at `piw7`, `nw7`. -/
theorem locMatch_w7 : locationFieldMatch piw7 nw7 = some 1 := by
  rw [locationFieldMatch, if_pos (by exact ⟨by decide, by decide⟩)]
  show some (calcEnhancedStringSimilarity (pyLower "a") (pyLower "a")) = _
  rw [show pyLower "a" = "a" from rfl, enhancedSim_self "a" (by decide)]

/-- The status match variable at `piw7`, `nw7`. -/
theorem statusMatch_w7 : statusFieldMatch piw7 nw7 = some 1 := by
  rw [statusFieldMatch, if_pos (by exact ⟨by decide, by decide⟩)]
  show some (calcEnhancedStringSimilarity (pyLower "c") (pyLower "c")) = _
  rw [show pyLower "c" = "c" from rfl, enhancedSim_self "c" (by decide)]

/-- The priority match variable at `piw7`, `nw7`: scored, similarity 0. -/
theorem priorityMatch_w7 : priorityFieldMatch piw7 nw7 = some 0 := by
  rw [priorityFieldMatch, if_pos (by exact ⟨by decide, by decide⟩)]
  show some (calcEnhancedStringSimilarity (pyLower "x") (pyLower "q")) = _
  rw [show pyLower "x" = "x" from rfl, show pyLower "q" = "q" from rfl,
    prioritySim_x_q]

/-- The weighted average at `piw7`, `nw7` is `0.9`. -/
theorem weighted_w7 : simpleWeightedScore piw7 nw7 = 9/10 := by
  rw [simpleWeightedScore]
  simp only [equipMatch_w7, locMatch_w7, statusMatch_w7, priorityMatch_w7,
    matchContribution, matchWeight]
  norm_num

/-- The simple scorer at `piw7`, `nw7` returns `1` (bonus applied). -/
theorem simpleScore_w7 : calcSimpleScore piw7 nw7 = .ok 1 := by
  rw [calcSimpleScore]
  simp only [weighted_w7]
  rw [if_pos (by exact ⟨by decide, by decide, by decide⟩)]
  rw [equipMatch_w7, locMatch_w7, statusMatch_w7]
  have hb : bonusCheck (some 1) (some 1) (some 1) = .ok true := by
    rw [bonusCheck_eq_ok_true_iff]
    exact ⟨⟨1, rfl, by norm_num⟩, ⟨1, rfl, by norm_num⟩, ⟨1, rfl, by norm_num⟩⟩
  rw [hb]
  norm_num

/-- Counterexample to C7 as stated: for query `piw7` and candidate `nw7`
the priority field is scored (it contributed weight `0.1`) with similarity
`0`, which does not exceed `0.8`, yet the bonus is added: the final score
is `min(0.9 + 0.1, 1) = 1`, not the plain weighted average `0.9`.  The
bonus test reads only the equipment, location and status matches. -/
theorem c7_counterexample :
    priorityFieldMatch piw7 nw7 = some 0 ∧ ¬ ((0:ℚ) > 8/10) ∧
    simpleWeightedScore piw7 nw7 = 9/10 ∧
    calcSimpleScore piw7 nw7 = .ok 1 ∧ (1:ℚ) ≠ 9/10 :=
  ⟨priorityMatch_w7, by norm_num, weighted_w7, simpleScore_w7, by norm_num⟩

/-- C7 (amended): on every non-raising evaluation of the simple scorer,
the `+0.1` completeness bonus (capped at `1`) is added iff the *query's*
equipment type, location and status code are all truthy and the three
corresponding match variables are assigned with each similarity exceeding
`0.8`; the priority similarity — even when it contributed weight to the
score — plays no role in the bonus decision. -/
theorem c7_amended_bonus (pi : ParsedInput) (n : NotiRecord) (fs : ℚ)
    (h : calcSimpleScore pi n = .ok fs) :
    (((present pi.equipment_type = true ∧ present pi.location = true ∧
        present pi.status_code = true) ∧
      (∃ ev, equipFieldMatch pi n = some ev ∧ ev > 8/10) ∧
      (∃ lv, locationFieldMatch pi n = some lv ∧ lv > 8/10) ∧
      (∃ sv, statusFieldMatch pi n = some sv ∧ sv > 8/10)) →
      fs = min (simpleWeightedScore pi n + 1/10) 1) ∧
    (¬ (((present pi.equipment_type = true ∧ present pi.location = true ∧
        present pi.status_code = true) ∧
      (∃ ev, equipFieldMatch pi n = some ev ∧ ev > 8/10) ∧
      (∃ lv, locationFieldMatch pi n = some lv ∧ lv > 8/10) ∧
      (∃ sv, statusFieldMatch pi n = some sv ∧ sv > 8/10))) →
      fs = simpleWeightedScore pi n) := by
  rw [calcSimpleScore] at h
  by_cases hp : present pi.equipment_type = true ∧ present pi.location = true
      ∧ present pi.status_code = true
  · rw [if_pos hp] at h
    cases hb : bonusCheck (equipFieldMatch pi n) (locationFieldMatch pi n)
        (statusFieldMatch pi n) with
    | error e => rw [hb] at h; cases h
    | ok b =>
        rw [hb] at h
        cases b
        · cases h
          refine ⟨?_, fun _ => rfl⟩
          intro hcond
          exfalso
          have hb2 : bonusCheck (equipFieldMatch pi n)
              (locationFieldMatch pi n) (statusFieldMatch pi n) = .ok true :=
            (bonusCheck_eq_ok_true_iff _ _ _).mpr
              ⟨hcond.2.1, hcond.2.2.1, hcond.2.2.2⟩
          rw [hb] at hb2
          cases hb2
        · cases h
          refine ⟨fun _ => rfl, ?_⟩
          intro hn
          exact absurd ⟨hp, (bonusCheck_eq_ok_true_iff _ _ _).mp hb⟩ hn
  · rw [if_neg hp] at h
    cases h
    exact ⟨fun hcond => absurd hcond.1 hp, fun _ => rfl⟩

/-- Witness for `c7_amended_bonus` at the concrete pair `piw7`, `nw7`:
the amended bonus condition holds there and the score is the capped
`weighted + 0.1`. -/
theorem c7_amended_bonus_witness :
    (1:ℚ) = min (simpleWeightedScore piw7 nw7 + 1/10) 1 :=
  (c7_amended_bonus piw7 nw7 1 simpleScore_w7).1
    ⟨⟨by decide, by decide, by decide⟩,
      ⟨1, equipMatch_w7, by norm_num⟩,
      ⟨1, locMatch_w7, by norm_num⟩,
      ⟨1, statusMatch_w7, by norm_num⟩⟩

/-! ## C1 — zero filtered rows trigger the fallback, not an empty result -/

/-- Identity stand-in for the LLM-backed normalizer (the normalizer keeps
the original term whenever its confidence gate rejects the LLM output). -/
def normId : String → String → String := fun _ t => t

/-- Cost-center lookup with no Excel file loaded (`_get_cost_center`
returns `None` when `noti_history_df is None`). -/
def ccNone : Option String → Option String := fun _ => none

/-- Work-detail generator that always fails (`_generate_work_details`
returns `None` on any LLM failure). -/
def gwNone : Recommendation → ParsedInput → Option (String × String) :=
  fun _ _ => none

/-- Character similarity is `0` whenever the edit distance reaches the
longer length. -/
theorem charSim_zero_of_dist_eq_len (s1 s2 : String) (h1 : ¬ s1 = "")
    (h2 : ¬ s2 = "") (m : Nat)
    (hm : max s1.data.length s2.data.length = m)
    (hd : levDistance s1.data s2.data = m) (hm0 : m ≠ 0) :
    calcCharacterSimilarity s1 s2 = 0 := by
  rw [calcCharacterSimilarity, if_neg (by simp [h1, h2])]
  simp only [hm, hd]
  rw [if_neg hm0]
  rw [div_self (by exact_mod_cast hm0)]
  norm_num

/-- `sim("c","zz") = 0`: no shared words, edit distance 2 over length 2. -/
theorem simEval_c_zz : calcEnhancedStringSimilarity "c" "zz" = 0 := by
  rw [enhancedSim_disjoint_singletons "c" "zz" "c" "zz" (by decide)
    (by decide) (by decide) rfl rfl rfl rfl (by decide)]
  rw [charSim_zero_of_dist_eq_len "c" "zz" (by decide) (by decide) 2 rfl
    (by show levDistance ['c'] ['z','z'] = 2; simp [levDistance])
    (by decide)]
  norm_num

/-- The single row of the C1 database: matches the query's location and
equipment type but not its status code. -/
def nw1 : NotiRecord :=
  { itemno := some "N1", process := some "PR", location := some "a",
    equipType := some "b", statusCode := some "zz",
    work_title := some "T", work_details := some "D",
    priority := some "일반작업" }

/-- The C1 query: all three descriptive fields set, empty priority. -/
def piw1 : ParsedInput :=
  { scenario := "S1", location := some "a", equipment_type := some "b",
    status_code := some "c", priority := "" }

/-- The simple scorer gives `nw1` the score `7/9` for `piw1`. -/
theorem simpleScore_w1 : calcSimpleScore piw1 nw1 = .ok (7/9) := by
  have hem : equipFieldMatch piw1 nw1 = some 1 := by
    rw [equipFieldMatch, if_pos (by exact ⟨by decide, by decide⟩)]
    show some (calcEnhancedStringSimilarity (pyLower "b") (pyLower "b")) = _
    rw [show pyLower "b" = "b" from rfl, enhancedSim_self "b" (by decide)]
  have hlm : locationFieldMatch piw1 nw1 = some 1 := by
    rw [locationFieldMatch, if_pos (by exact ⟨by decide, by decide⟩)]
    show some (calcEnhancedStringSimilarity (pyLower "a") (pyLower "a")) = _
    rw [show pyLower "a" = "a" from rfl, enhancedSim_self "a" (by decide)]
  have hsm : statusFieldMatch piw1 nw1 = some 0 := by
    rw [statusFieldMatch, if_pos (by exact ⟨by decide, by decide⟩)]
    show some (calcEnhancedStringSimilarity (pyLower "c") (pyLower "zz")) = _
    rw [show pyLower "c" = "c" from rfl, show pyLower "zz" = "zz" from rfl,
      simEval_c_zz]
  have hpm : priorityFieldMatch piw1 nw1 = none := by
    rw [priorityFieldMatch, if_neg]
    intro hcond
    exact hcond.1 rfl
  have hw : simpleWeightedScore piw1 nw1 = 7/9 := by
    rw [simpleWeightedScore]
    simp only [hem, hlm, hsm, hpm, matchContribution, matchWeight]
    norm_num
  rw [calcSimpleScore]
  simp only [hw]
  rw [if_pos (by exact ⟨by decide, by decide, by decide⟩)]
  rw [hem, hlm, hsm]
  have hb : bonusCheck (some 1) (some 1) (some 0) = .ok false := by
    simp only [bonusCheck]
    rw [if_pos (by norm_num), if_pos (by norm_num)]
    simp only [Except.ok.injEq]
    simp [decide_eq_false_iff_not]
    norm_num
  rw [hb]

/-- For the query `piw1`, the filtered search over `[nw1]` is empty (the
status-code `LIKE` filter rejects the row), so the provider falls back to
the most recent rows and retrieval returns `[nw1]` anyway. -/
theorem retrieve_w1 :
    searchSimilarFiltered normId [nw1] piw1.equipment_type piw1.location
      piw1.status_code (some piw1.priority) 10 = [] ∧
    retrieveCandidates normId [nw1] piw1 5 = [nw1] := by
  constructor
  · rfl
  · rfl

/-- The full recommendation core on the C1 database: the filtered search
found nothing, yet the fallback row is scored `7/9 > 0.2` and returned. -/
theorem core_w1 : getRecommendationsCore normId ccNone gwNone [nw1] piw1 5 =
    .ok [buildRecommendation ccNone nw1 (7/9)] := by
  rw [getRecommendationsCore, retrieve_w1.2]
  rw [if_neg (by decide)]
  have hsc : scoreCandidate piw1 nw1 = .ok (7/9) := by
    rw [scoreCandidate, if_neg (by decide)]
    exact simpleScore_w1
  have hsa : scoreAll piw1 [nw1] = .ok [(nw1, 7/9)] := by
    rw [scoreAll, hsc]
    rfl
  rw [hsa]
  have hq : ((1:ℚ)/5 < 7/9) := by norm_num
  simp only [List.filter_cons, List.filter_nil, hq, decide_True, if_true,
    List.map_cons, List.map_nil, sortRecsByScoreDesc,
    List.mergeSort_singleton, List.take_succ_cons, List.take_nil]
  rw [show enrichRec gwNone piw1 (buildRecommendation ccNone nw1 (7/9)) =
      buildRecommendation ccNone nw1 (7/9) from by
    rw [enrichRec, if_neg (by decide)]]

/-- Counterexample to C1 as stated: for the query `piw1` over the store
`[nw1]` the filtered candidate search yields zero rows, yet the ranked
recommendation result is not empty — the fallback row `nw1` is returned
with score `7/9`. -/
theorem c1_counterexample :
    searchSimilarFiltered normId [nw1] piw1.equipment_type piw1.location
      piw1.status_code (some piw1.priority) 10 = [] ∧
    getRecommendations normId ccNone gwNone [nw1] piw1 5 =
      [buildRecommendation ccNone nw1 (7/9)] ∧
    getRecommendations normId ccNone gwNone [nw1] piw1 5 ≠ [] := by
  refine ⟨retrieve_w1.1, ?_, ?_⟩
  · rw [getRecommendations, core_w1]
  · rw [getRecommendations, core_w1]
    simp

/-- Every pair produced by a successful scoring loop comes from a retrieved
candidate with exactly that score. -/
theorem scoreAll_ok_mem (pi : ParsedInput) (l : List NotiRecord)
    (res : List (NotiRecord × ℚ)) (h : scoreAll pi l = .ok res) :
    ∀ x ∈ res, ∃ n ∈ l, scoreCandidate pi n = .ok x.2 := by
  induction l generalizing res with
  | nil =>
      rw [scoreAll] at h
      cases h
      intro x hx
      cases hx
  | cons n rest ih =>
      rw [scoreAll] at h
      cases hn : scoreCandidate pi n with
      | error e => rw [hn] at h; cases h
      | ok s =>
          rw [hn] at h
          cases hr : scoreAll pi rest with
          | error e => rw [hr] at h; cases h
          | ok lr =>
              rw [hr] at h
              cases h
              intro x hx
              rcases List.mem_cons.mp hx with hx1 | hx2
              · subst hx1
                exact ⟨n, List.mem_cons_self n rest, hn⟩
              · obtain ⟨n2, hn2, hs2⟩ := ih lr hr x hx2
                exact ⟨n2, List.mem_cons_of_mem n hn2, hs2⟩

/-- C1 (amended): the ranked result is empty whenever every retrieved
candidate that scores successfully falls at or below the `0.2` cutoff — in
particular when retrieval (the filtered search followed by its zero-row
fallback) returns nothing at all.  A zero-row *filtered* search alone does
not produce an empty result: it triggers `_fallback_search`, whose
unfiltered rows are scored and can be returned (see the
counterexample). -/
theorem c1_amended_empty_result (normalize : String → String → String)
    (costCenter : Option String → Option String)
    (genWork : Recommendation → ParsedInput → Option (String × String))
    (db : List NotiRecord) (pi : ParsedInput) (limit : Nat)
    (h : ∀ n ∈ retrieveCandidates normalize db pi limit, ∀ q,
      scoreCandidate pi n = .ok q → q ≤ 1/5) :
    getRecommendations normalize costCenter genWork db pi limit = [] := by
  unfold getRecommendations getRecommendationsCore
  by_cases hs : (retrieveCandidates normalize db pi limit).isEmpty = true
  · rw [if_pos hs]
  · rw [if_neg hs]
    cases hsc : scoreAll pi (retrieveCandidates normalize db pi limit) with
    | error e => rfl
    | ok scored =>
        have hfil : scored.filter (fun x => decide ((1:ℚ)/5 < x.2)) = [] := by
          rw [List.filter_eq_nil_iff]
          intro a ha
          obtain ⟨n, hn, hq⟩ := scoreAll_ok_mem pi _ scored hsc a ha
          have hle := h n hn a.2 hq
          simp only [decide_eq_true_eq]
          exact not_lt.mpr hle
        simp only [hfil, List.map_nil, sortRecsByScoreDesc,
          List.mergeSort_nil, List.take_nil]

/-- The single row of the C1-witness database: its equipment type shares
nothing with the query's, so its score is `0`. -/
def nw1b : NotiRecord := { itemno := some "N2", equipType := some "zz" }

/-- The C1-witness query: only the equipment type is given. -/
def piw1b : ParsedInput :=
  { scenario := "S1", equipment_type := some "b", priority := "" }

/-- `sim("b","zz") = 0`: no shared words, edit distance 2 over length 2. -/
theorem simEval_b_zz : calcEnhancedStringSimilarity "b" "zz" = 0 := by
  rw [enhancedSim_disjoint_singletons "b" "zz" "b" "zz" (by decide)
    (by decide) (by decide) rfl rfl rfl rfl (by decide)]
  rw [charSim_zero_of_dist_eq_len "b" "zz" (by decide) (by decide) 2 rfl
    (by show levDistance ['b'] ['z','z'] = 2; simp [levDistance])
    (by decide)]
  norm_num

/-- The fallback row `nw1b` scores `0` for the witness query. -/
theorem simpleScore_w1b : calcSimpleScore piw1b nw1b = .ok 0 := by
  have hem : equipFieldMatch piw1b nw1b = some 0 := by
    rw [equipFieldMatch, if_pos (by exact ⟨by decide, by decide⟩)]
    show some (calcEnhancedStringSimilarity (pyLower "b") (pyLower "zz")) = _
    rw [show pyLower "b" = "b" from rfl, show pyLower "zz" = "zz" from rfl,
      simEval_b_zz]
  have hlm : locationFieldMatch piw1b nw1b = none := by
    rw [locationFieldMatch, if_neg]
    intro hcond
    cases hcond.1
  have hsm : statusFieldMatch piw1b nw1b = none := by
    rw [statusFieldMatch, if_neg]
    intro hcond
    cases hcond.1
  have hpm : priorityFieldMatch piw1b nw1b = none := by
    rw [priorityFieldMatch, if_neg]
    intro hcond
    exact hcond.1 rfl
  have hw : simpleWeightedScore piw1b nw1b = 0 := by
    rw [simpleWeightedScore]
    simp only [hem, hlm, hsm, hpm, matchContribution, matchWeight]
    norm_num
  rw [calcSimpleScore]
  simp only [hw]
  rw [if_neg]
  intro hcond
  cases hcond.2.1

/-- Witness for `c1_amended_empty_result`: the filtered search rejects
`nw1b`, the fallback retrieves it anyway, it scores `0 ≤ 0.2`, and the
ranked result is empty. -/
theorem c1_amended_empty_result_witness :
    getRecommendations normId ccNone gwNone [nw1b] piw1b 5 = [] := by
  apply c1_amended_empty_result
  intro n hn q hq
  have hr : retrieveCandidates normId [nw1b] piw1b 5 = [nw1b] := rfl
  rw [hr] at hn
  rcases List.mem_singleton.mp hn with rfl
  have hsc : scoreCandidate piw1b nw1b = .ok 0 := by
    rw [scoreCandidate, if_neg (by decide)]
    exact simpleScore_w1b
  rw [hsc] at hq
  cases hq
  norm_num

/-! ## C10 — the unassigned-variable branch is reachable and wipes the
result -/

/-- The C10 query: all three descriptive fields set, empty priority. -/
def piw10 : ParsedInput :=
  { scenario := "S1", location := some "a", equipment_type := some "b",
    status_code := some "c", priority := "" }

/-- A candidate that scores fine: its status code merely differs from the
query's. -/
def goodRow10 : NotiRecord :=
  { itemno := some "G1", process := some "P", location := some "a",
    equipType := some "b", statusCode := some "z",
    priority := some "일반작업", work_title := some "T",
    work_details := some "D" }

/-- A candidate with an *empty* status code: the status match variable is
never assigned, while the equipment and location matches are both `1`. -/
def badRow10 : NotiRecord :=
  { itemno := some "B1", location := some "a", equipType := some "b",
    statusCode := some "" }

/-- `sim("c","z") = 0`: no shared words, edit distance 1 over length 1. -/
theorem simEval_c_z : calcEnhancedStringSimilarity "c" "z" = 0 := by
  rw [enhancedSim_disjoint_singletons "c" "z" "c" "z" (by decide)
    (by decide) (by decide) rfl rfl rfl rfl (by decide)]
  rw [charSim_zero_of_dist_eq_len "c" "z" (by decide) (by decide) 1 rfl
    (by show levDistance ['c'] ['z'] = 1; simp [levDistance])
    (by decide)]
  norm_num

/-- The well-formed candidate scores `7/9` for the C10 query. -/
theorem simpleScore_good10 : calcSimpleScore piw10 goodRow10 = .ok (7/9)
    := by
  have hem : equipFieldMatch piw10 goodRow10 = some 1 := by
    rw [equipFieldMatch, if_pos (by exact ⟨by decide, by decide⟩)]
    show some (calcEnhancedStringSimilarity (pyLower "b") (pyLower "b")) = _
    rw [show pyLower "b" = "b" from rfl, enhancedSim_self "b" (by decide)]
  have hlm : locationFieldMatch piw10 goodRow10 = some 1 := by
    rw [locationFieldMatch, if_pos (by exact ⟨by decide, by decide⟩)]
    show some (calcEnhancedStringSimilarity (pyLower "a") (pyLower "a")) = _
    rw [show pyLower "a" = "a" from rfl, enhancedSim_self "a" (by decide)]
  have hsm : statusFieldMatch piw10 goodRow10 = some 0 := by
    rw [statusFieldMatch, if_pos (by exact ⟨by decide, by decide⟩)]
    show some (calcEnhancedStringSimilarity (pyLower "c") (pyLower "z")) = _
    rw [show pyLower "c" = "c" from rfl, show pyLower "z" = "z" from rfl,
      simEval_c_z]
  have hpm : priorityFieldMatch piw10 goodRow10 = none := by
    rw [priorityFieldMatch, if_neg]
    intro hcond
    exact hcond.1 rfl
  have hw : simpleWeightedScore piw10 goodRow10 = 7/9 := by
    rw [simpleWeightedScore]
    simp only [hem, hlm, hsm, hpm, matchContribution, matchWeight]
    norm_num
  rw [calcSimpleScore]
  simp only [hw]
  rw [if_pos (by exact ⟨by decide, by decide, by decide⟩)]
  rw [hem, hlm, hsm]
  have hb : bonusCheck (some 1) (some 1) (some 0) = .ok false := by
    simp only [bonusCheck]
    rw [if_pos (by norm_num), if_pos (by norm_num)]
    simp only [Except.ok.injEq]
    simp [decide_eq_false_iff_not]
    norm_num
  rw [hb]

/-- Scoring the empty-status candidate raises: the equipment and location
matches both exceed `0.8`, so the bonus test reads the never-assigned
status match. -/
theorem simpleScore_bad10 :
    calcSimpleScore piw10 badRow10 = .error .nameError := by
  have hem : equipFieldMatch piw10 badRow10 = some 1 := by
    rw [equipFieldMatch, if_pos (by exact ⟨by decide, by decide⟩)]
    show some (calcEnhancedStringSimilarity (pyLower "b") (pyLower "b")) = _
    rw [show pyLower "b" = "b" from rfl, enhancedSim_self "b" (by decide)]
  have hlm : locationFieldMatch piw10 badRow10 = some 1 := by
    rw [locationFieldMatch, if_pos (by exact ⟨by decide, by decide⟩)]
    show some (calcEnhancedStringSimilarity (pyLower "a") (pyLower "a")) = _
    rw [show pyLower "a" = "a" from rfl, enhancedSim_self "a" (by decide)]
  have hsm : statusFieldMatch piw10 badRow10 = none := by
    rw [statusFieldMatch, if_neg]
    intro hcond
    exact absurd hcond.2 (by decide)
  rw [calcSimpleScore]
  rw [if_pos (by exact ⟨by decide, by decide, by decide⟩)]
  rw [hem, hlm, hsm]
  have hb : bonusCheck (some 1) (some 1) none = .error .nameError := by
    simp only [bonusCheck]
    rw [if_pos (by norm_num), if_pos (by norm_num)]
  rw [hb]

/-- C10: the per-candidate scoring error branch is reachable — on the C10
database both rows fail the status filter, the fallback returns both, the
well-formed row scores `7/9 > 0.2`, but scoring the empty-status row
raises `NameError`; the loop aborts, the top-level handler catches the
error, and the entire query's result collapses to the empty list,
discarding the good candidate. -/
theorem c10_scoring_name_error :
    calcSimpleScore piw10 badRow10 = .error .nameError ∧
    calcSimpleScore piw10 goodRow10 = .ok (7/9) ∧ ((1:ℚ)/5 < 7/9) ∧
    retrieveCandidates normId [goodRow10, badRow10] piw10 5 =
      [goodRow10, badRow10] ∧
    getRecommendationsCore normId ccNone gwNone [goodRow10, badRow10]
      piw10 5 = .error .nameError ∧
    getRecommendations normId ccNone gwNone [goodRow10, badRow10] piw10 5 =
      [] := by
  have hretr : retrieveCandidates normId [goodRow10, badRow10] piw10 5 =
      [goodRow10, badRow10] := rfl
  have hscg : scoreCandidate piw10 goodRow10 = .ok (7/9) := by
    rw [scoreCandidate, if_neg (by decide)]
    exact simpleScore_good10
  have hscb : scoreCandidate piw10 badRow10 = .error .nameError := by
    rw [scoreCandidate, if_neg (by decide)]
    exact simpleScore_bad10
  have hsab : scoreAll piw10 [badRow10] = .error .nameError := by
    rw [scoreAll, hscb]
  have hsa : scoreAll piw10 [goodRow10, badRow10] = .error .nameError := by
    rw [scoreAll, hscg, hsab]
  have hcore : getRecommendationsCore normId ccNone gwNone
      [goodRow10, badRow10] piw10 5 = .error .nameError := by
    rw [getRecommendationsCore, hretr, if_neg (by decide), hsa]
  refine ⟨simpleScore_bad10, simpleScore_good10, by norm_num, hretr, hcore,
    ?_⟩
  rw [getRecommendations, hcore]
